import Mathlib

/-!
# Smart-home device link: serial session and rule engine

A shallow embedding of `server/serial/arduino_serial.go`,
`server/services/rule_service.go`, `server/models/models.go` and the rule
endpoints of `server/handlers/handlers.go`.

Modelling conventions
* Go strings are Lean `String`s read as sequences of code points; the
  `strings` / `strconv` helpers are re-implemented by structural recursion on
  the character list.
* Go `int` is `Int`; the only place where the 64-bit range matters is
  `strconv.Atoi`, which rejects values outside it.
* `time.Time` is a natural number (a tick count); `time.Now()` is passed in.
* `sync.RWMutex` is a flag of the session.  Go mutexes are not re-entrant, so a
  call that reaches `Lock()` while the flag is set never returns: the
  operation ends in `Outcome.blocked`.
* The serial port records every chunk handed to a successful `Write`.
* The MongoDB collections behind the two services are lists of documents.
-/

set_option linter.unusedVariables false
set_option maxRecDepth 100000

namespace SmartHome

/-! ## Go library primitives -/

namespace unicode

/-- Go `unicode.IsSpace`: the Latin-1 spaces and the code points with the
Unicode White_Space property. -/
def IsSpace (c : Char) : Bool :=
  let n := c.toNat
  n == 0x09 || n == 0x0A || n == 0x0B || n == 0x0C || n == 0x0D || n == 0x20 ||
  n == 0x85 || n == 0xA0 || n == 0x1680 || (0x2000 ≤ n && n ≤ 0x200A) ||
  n == 0x2028 || n == 0x2029 || n == 0x202F || n == 0x205F || n == 0x3000

/-- Go `unicode.ToLower` as far as this program can observe it: ASCII capitals
are lowered, and the two non-ASCII code points whose lower case is an ASCII
letter (U+0130 and the Kelvin sign U+212A) are mapped to it.  Every other
code point is either fixed or moves to another non-ASCII code point, which no
pattern of the program mentions. -/
def ToLower (c : Char) : Char :=
  if 'A' ≤ c ∧ c ≤ 'Z' then Char.ofNat (c.toNat + 32)
  else if c.toNat = 0x130 then 'i'
  else if c.toNat = 0x212A then 'k'
  else c

end unicode

namespace strings

/-- Character-list worker of `Contains`. -/
def containsChars (sub : List Char) : List Char → Bool
  | [] => sub.isEmpty
  | c :: cs => sub.isPrefixOf (c :: cs) || containsChars sub cs

/-- Go `strings.Contains(s, substr)`. -/
def Contains (s substr : String) : Bool :=
  containsChars substr.data s.data

/-- Character-list worker of `Split` for a one-character separator. -/
def splitChars (sep : Char) : List Char → List (List Char)
  | [] => [[]]
  | c :: cs =>
    if c = sep then [] :: splitChars sep cs
    else
      match splitChars sep cs with
      | [] => [[c]]
      | p :: ps => (c :: p) :: ps

/-- Go `strings.Split(s, sep)` for the one-character separators the program
uses (`","` and `":"`): the pieces between the separators, `n + 1` of them for
`n` separators. -/
def Split (s : String) (sep : Char) : List String :=
  (splitChars sep s.data).map String.mk

/-- Go `strings.TrimSpace`. -/
def TrimSpace (s : String) : String :=
  String.mk ((s.data.dropWhile unicode.IsSpace).rdropWhile unicode.IsSpace)

/-- Go `strings.ToLower`. -/
def ToLower (s : String) : String :=
  String.mk (s.data.map unicode.ToLower)

end strings

namespace strconv

/-- Value of a string of ASCII digits, `none` on any other character. -/
def parseDigits : List Char → Nat → Option Nat
  | [], acc => some acc
  | c :: cs, acc =>
    if '0' ≤ c ∧ c ≤ '9' then parseDigits cs (acc * 10 + (c.toNat - 48)) else none

/-- Smallest value of a Go `int` (64-bit). -/
def minInt : Int := -(2 ^ 63)

/-- Largest value of a Go `int` (64-bit). -/
def maxInt : Int := 2 ^ 63 - 1

/-- Range check shared by the signed cases of `Atoi`. -/
def inRange (v : Int) : Option Int :=
  if minInt ≤ v ∧ v ≤ maxInt then some v else none

/-- Go `strconv.Atoi`: an optional sign followed by at least one decimal
digit, the value within the range of `int`; `none` stands for the error. -/
def Atoi (s : String) : Option Int :=
  match s.data with
  | [] => none
  | '-' :: ds =>
    if ds.isEmpty then none else (parseDigits ds 0).bind fun n => inRange (-(n : Int))
  | '+' :: ds =>
    if ds.isEmpty then none else (parseDigits ds 0).bind fun n => inRange (n : Int)
  | ds => (parseDigits ds 0).bind fun n => inRange (n : Int)

end strconv

namespace fmt

/-- The `%d` verb of `fmt.Sprintf` on an `int`. -/
def formatInt (n : Int) : String :=
  if n < 0 then "-" ++ Nat.repr n.natAbs else Nat.repr n.toNat

end fmt

/-! ## models -/

/-- Go `models.SensorData`: one persisted telemetry record. -/
structure SensorData where
  Light : Int
  Gas : Int
  Soil : Int
  Water : Int
  Infrared : Int
  Timestamp : Nat
  Alerts : List String
  deriving DecidableEq, Repr

/-- Go `models.SensorReading`: the real-time sample decoded from one line. -/
structure SensorReading where
  Gas : Int
  Light : Int
  Soil : Int
  Water : Int
  Infrar : Int
  Btn1 : Int
  Btn2 : Int
  Timestamp : Nat
  deriving DecidableEq, Repr

/-- Go `models.ActuatorStates`. -/
structure ActuatorStates where
  WhiteLight : Bool
  YellowLight : Bool
  Relay : Bool
  DoorAngle : Int
  WindowAngle : Int
  Fan : Bool
  FanSpeed : Int
  Buzzer : Bool
  deriving DecidableEq, Repr

/-- Go `models.Rule` (the object identifier is left out: no modelled
operation reads it). -/
structure Rule where
  Name : String
  Sensor : String
  Operator : String
  Threshold : Int
  Action : String
  Enabled : Bool
  Description : String
  CreatedAt : Nat
  UpdatedAt : Nat
  deriving DecidableEq, Repr

/-! ## Collaborators: the serial port and the database -/

/-- The open serial stream behind `a.port`. -/
structure Port where
  /-- chunks accepted by `Write`, oldest first -/
  written : List String
  /-- the error `Write` returns, if the transport is failing -/
  writeErr : Option String
  deriving DecidableEq, Repr

/-- Go `port.Write(data)`: the chunk is recorded unless the transport fails. -/
def Port.Write (p : Port) (data : String) : Port × Option String :=
  match p.writeErr with
  | some e => (p, some e)
  | none => ({ p with written := p.written ++ [data] }, none)

/-- The database behind `sensorService` and `ruleService`. -/
structure Database where
  /-- the `rules` collection, in insertion order -/
  rules : List Rule
  /-- the error a query on `rules` returns, if the store is failing -/
  findErr : Option String
  /-- number of `Find` queries issued on `rules` -/
  finds : Nat
  /-- the error `InsertOne` on `rules` returns, if the store is failing -/
  createErr : Option String
  /-- the `sensordatas` collection, in insertion order -/
  sensordatas : List SensorData
  /-- the error `InsertMany` returns, if the store is failing -/
  insertErr : Option String
  deriving DecidableEq, Repr

/-- Go `SensorService.SaveBulkSensorData`: an empty batch is a no-op, any
other batch is inserted whole or not at all. -/
def SaveBulkSensorData (db : Database) (data : List SensorData) : Option String × Database :=
  if data.isEmpty then (none, db)
  else
    match db.insertErr with
    | some e => (some ("failed to save bulk sensor data: " ++ e), db)
    | none => (none, { db with sensordatas := db.sensordatas ++ data })

/-! ## The link session -/

/-- Go `serial.ArduinoSerial`.  `sensorService` and `ruleService` are the two
views of `db`; the last three fields are the run-time objects the struct
refers to: the callbacks registered with `time.AfterFunc`, the background
loops started with `go`, and the ports on which `Close` was called. -/
structure ArduinoSerial where
  port : Option Port
  isConnected : Bool
  currentData : Option SensorReading
  actuatorStates : ActuatorStates
  dataBuffer : List SensorData
  db : Database
  commandQueue : List String
  isReady : Bool
  /-- set while some call chain holds `a.mutex` -/
  mutex : Bool
  /-- set once `close(a.stopChan)` has run -/
  stopChan : Bool
  saveInterval : Nat
  /-- commands captured by pending `time.AfterFunc` callbacks, oldest first -/
  timers : List String
  /-- number of background loops started so far -/
  loops : Nat
  /-- ports that were closed and released -/
  closedPorts : List Port
  deriving DecidableEq, Repr

/-- How a call on the session ends. -/
inductive Outcome (α : Type) where
  /-- the call returned `r`, leaving the session as `a` -/
  | returned (a : ArduinoSerial) (r : α)
  /-- the call waits for ever on `a.mutex`; `a` is the session at that point -/
  | blocked (a : ArduinoSerial)
  /-- the call panicked (close of a closed channel) -/
  | panicked (a : ArduinoSerial)
  deriving DecidableEq, Repr

/-- The session a call leaves behind, however it ended. -/
def Outcome.state {α : Type} : Outcome α → ArduinoSerial
  | .returned a _ => a
  | .blocked a => a
  | .panicked a => a

/-- Sequencing of calls: what follows a call that did not return never runs. -/
def Outcome.andThen {α β : Type} (o : Outcome α) (k : ArduinoSerial → α → Outcome β) :
    Outcome β :=
  match o with
  | .returned a r => k a r
  | .blocked a => .blocked a
  | .panicked a => .panicked a

/-- The session once `a.mutex.Lock()` has succeeded. -/
def ArduinoSerial.lock (a : ArduinoSerial) : ArduinoSerial := { a with mutex := true }

/-- The session after `a.mutex.Unlock()`. -/
def ArduinoSerial.unlock (a : ArduinoSerial) : ArduinoSerial := { a with mutex := false }

/-- Go `NewArduinoSerial`. -/
def NewArduinoSerial (db : Database) : ArduinoSerial :=
  { port := none
    isConnected := false
    currentData := none
    actuatorStates :=
      { WhiteLight := false, YellowLight := false, Relay := false, DoorAngle := 0,
        WindowAngle := 0, Fan := false, FanSpeed := 0, Buzzer := false }
    dataBuffer := []
    db := db
    commandQueue := []
    isReady := true
    mutex := false
    stopChan := false
    saveInterval := 2
    timers := []
    loops := 0
    closedPorts := [] }

/-- Go `ArduinoSerial.Connect`; `opened` is what `serial.OpenPort` answers. -/
def Connect (a : ArduinoSerial) (portName : String) (baudRate : Int)
    (opened : Except String Port) : Outcome (Option String) :=
  if a.mutex then .blocked a
  else
    let a := a.lock
    if a.isConnected then .returned a.unlock (some "already connected to a port")
    else
      match opened with
      | .error e =>
        .returned a.unlock (some ("failed to open port " ++ portName ++ ": " ++ e))
      | .ok port =>
        let a := { a with port := some port, isConnected := true }
        -- go a.startDataListener(); go a.startDataSaver()
        let a := { a with loops := a.loops + 2 }
        .returned a.unlock none

/-- Go `ArduinoSerial.SendCommand`. -/
def SendCommand (a : ArduinoSerial) (command : String) : Outcome (Option String) :=
  if a.mutex then .blocked a
  else
    let a := a.lock
    match a.isConnected, a.port with
    | true, some port =>
      if !a.isReady then
        -- Queue the command
        .returned { a with commandQueue := a.commandQueue ++ [command] }.unlock none
      else
        -- Send command immediately
        match port.Write (command ++ "\n") with
        | (port, some err) =>
          .returned { a with port := some port }.unlock (some ("failed to send command: " ++ err))
        | (port, none) =>
          .returned { a with port := some port, isReady := false }.unlock none
    | _, _ => .returned a.unlock (some "not connected to Arduino")

/-- The callback of `time.AfterFunc` in `handleIncomingData`: the `i`-th
pending timer fires and hands its command to `SendCommand`. -/
def fireTimer (a : ArduinoSerial) (i : Nat) : Outcome (Option String) :=
  match a.timers.get? i with
  | none => .returned a none
  | some nextCommand => SendCommand { a with timers := a.timers.eraseIdx i } nextCommand

/-! ## server/services/rule_service.go -/

/-- Go `RuleService.GetAllRules`: `Find(ctx, bson.M{}).Sort("-createdAt")`,
that is every document of the collection, by descending creation time. -/
def GetAllRules (db : Database) : Except String (List Rule) × Database :=
  let db1 := { db with finds := db.finds + 1 }
  match db.findErr with
  | some e => (.error ("failed to get rules: " ++ e), db1)
  | none => (.ok (db.rules.insertionSort fun x y => x.CreatedAt ≥ y.CreatedAt), db1)

/-- The `switch rule.Sensor` of `EvaluateRules`; `none` is the `default`
branch. -/
def sensorValueOf (sensorData : SensorReading) (sensor : String) : Option Int :=
  if sensor = "gas" then some sensorData.Gas
  else if sensor = "light" then some sensorData.Light
  else if sensor = "soil" then some sensorData.Soil
  else if sensor = "water" then some sensorData.Water
  else none

/-- The `switch rule.Operator` of `EvaluateRules`; `triggered` stays `false`
for any other operator. -/
def triggeredBy (operator : String) (sensorValue threshold : Int) : Bool :=
  if operator = ">" then decide (sensorValue > threshold)
  else if operator = "<" then decide (sensorValue < threshold)
  else if operator = ">=" then decide (sensorValue ≥ threshold)
  else if operator = "<=" then decide (sensorValue ≤ threshold)
  else if operator = "==" then decide (sensorValue = threshold)
  else false

/-- The alert text,
`fmt.Sprintf("%s: %s %s %d (current: %d)", name, sensor, operator, threshold, value)`. -/
def alertText (rule : Rule) (sensorValue : Int) : String :=
  rule.Name ++ ": " ++ rule.Sensor ++ " " ++ rule.Operator ++ " " ++
    fmt.formatInt rule.Threshold ++ " (current: " ++ fmt.formatInt sensorValue ++ ")"

/-- One iteration of the `for _, rule := range rules` loop of `EvaluateRules`
on the pair `(triggeredActions, alerts)`. -/
def evaluateStep (sensorData : SensorReading) (acc : List String × List String)
    (rule : Rule) : List String × List String :=
  if !rule.Enabled then acc
  else
    match sensorValueOf sensorData rule.Sensor with
    | none => acc
    | some sensorValue =>
      if triggeredBy rule.Operator sensorValue rule.Threshold then
        (acc.1 ++ [rule.Action], acc.2 ++ [alertText rule sensorValue])
      else acc

/-- The loop of `EvaluateRules` over a fetched rule list; the function returns
`alerts`, the second component, and drops `triggeredActions`. -/
def evaluateLoop (rules : List Rule) (sensorData : SensorReading) :
    List String × List String :=
  rules.foldl (evaluateStep sensorData) ([], [])

/-- Go `RuleService.EvaluateRules`. -/
def EvaluateRules (db : Database) (sensorData : SensorReading) : List String × Database :=
  match GetAllRules db with
  | (.error _, db1) => ([], db1)
  | (.ok rules, db1) => ((evaluateLoop rules sensorData).2, db1)

/-- Go `RuleService.CreateRule`; `now` is what `time.Now()` reads. -/
def CreateRule (db : Database) (rule : Rule) (now : Nat) : Option String × Database :=
  let rule := { rule with CreatedAt := now, UpdatedAt := now }
  match db.createErr with
  | some e => (some ("failed to create rule: " ++ e), db)
  | none => (none, { db with rules := db.rules ++ [rule] })

/-- Go `RuleService.CountRules`. -/
def CountRules (db : Database) : Except String Nat × Database :=
  let db1 := { db with finds := db.finds + 1 }
  match db.findErr with
  | some e => (.error ("failed to count rules: " ++ e), db1)
  | none => (.ok db.rules.length, db1)

/-- The `defaultRules` literal of `InitializeDefaultRules`. -/
def defaultRules : List Rule :=
  [ { Name := "Gas Danger Alert", Sensor := "gas", Operator := ">", Threshold := 700,
      Action := "buzzer_on", Enabled := true,
      Description := "Trigger buzzer when gas level exceeds danger threshold",
      CreatedAt := 0, UpdatedAt := 0 },
    { Name := "Rain Detection - Close Window", Sensor := "water", Operator := ">",
      Threshold := 800, Action := "window_close", Enabled := true,
      Description := "Automatically close window when rain is detected",
      CreatedAt := 0, UpdatedAt := 0 },
    { Name := "Low Soil Moisture Alert", Sensor := "soil", Operator := ">", Threshold := 50,
      Action := "buzzer_on", Enabled := true,
      Description := "Alert when soil moisture is too low",
      CreatedAt := 0, UpdatedAt := 0 },
    { Name := "Auto Light - Low Light Detection", Sensor := "light", Operator := "<",
      Threshold := 300, Action := "white_light_on", Enabled := true,
      Description := "Automatically turn on LED when light level is low",
      CreatedAt := 0, UpdatedAt := 0 } ]

/-- The `for _, rule := range defaultRules` loop of `InitializeDefaultRules`
from its `k`-th iteration on; `clock k` is what `time.Now()` reads in the
`CreateRule` of iteration `k`. -/
def createAll (db : Database) (clock : Nat → Nat) (k : Nat) :
    List Rule → Option String × Database
  | [] => (none, db)
  | rule :: rest =>
    match CreateRule db rule (clock k) with
    | (some err, db1) =>
      (some ("failed to create default rule " ++ rule.Name ++ ": " ++ err), db1)
    | (none, db1) => createAll db1 clock (k + 1) rest

/-- Go `InitializeDefaultRules`; `clock k` is the time at which the `k`-th
default rule is created. -/
def InitializeDefaultRules (db : Database) (clock : Nat → Nat) : Option String × Database :=
  match CountRules db with
  | (.error e, db1) => (some ("failed to check rule count: " ++ e), db1)
  | (.ok count, db1) =>
    if count > 0 then (none, db1) -- Rules already exist
    else createAll db1 clock 0 defaultRules

/-! ## server/serial/arduino_serial.go: inbound lines -/

/-- Go `ArduinoSerial.executeTriggeredActions`: it runs inside
`parseSensorData`, with the session mutex held by the caller. -/
def executeTriggeredActions (a : ArduinoSerial) : List String → Outcome Unit
  | [] => .returned a ()
  | alert :: rest =>
    if strings.Contains alert "buzzer_on" then
      (SendCommand a "BUZZER_ON").andThen fun a _ => executeTriggeredActions a rest
    else if strings.Contains alert "white_light_on" then
      (SendCommand a "WHITE_LIGHT_ON").andThen fun a _ => executeTriggeredActions a rest
    else if strings.Contains alert "window_close" then
      (SendCommand a "WINDOW_CLOSE").andThen fun a _ => executeTriggeredActions a rest
    else executeTriggeredActions a rest

/-- One iteration of the `for _, part := range parts` loop of
`parseSensorData`. -/
def parsePart (data : SensorReading) (part : String) : SensorReading :=
  match strings.Split part ':' with
  | [k, v] =>
    let key := strings.ToLower (strings.TrimSpace k)
    let valueStr := strings.TrimSpace v
    match strconv.Atoi valueStr with
    | none => data
    | some value =>
      if key = "gas" then { data with Gas := value }
      else if key = "light" then { data with Light := value }
      else if key = "soil" then { data with Soil := value }
      else if key = "water" then { data with Water := value }
      else if key = "infrar" then { data with Infrar := value }
      else if key = "btn1" then { data with Btn1 := value }
      else if key = "btn2" then { data with Btn2 := value }
      else data
  | _ => data

/-- The decoding half of `parseSensorData`: the sample built from the line. -/
def parseFields (now : Nat) (line : String) : SensorReading :=
  (strings.Split line ',').foldl parsePart
    { Gas := 0, Light := 0, Soil := 0, Water := 0, Infrar := 0, Btn1 := 0, Btn2 := 0,
      Timestamp := now }

/-- The buffer cap at the end of `parseSensorData`:
`if len(buf) > 100 { buf = buf[len(buf)-50:] }`. -/
def capBuffer (buf : List SensorData) : List SensorData :=
  if buf.length > 100 then buf.drop (buf.length - 50) else buf

/-- Go `ArduinoSerial.parseSensorData`. -/
def parseSensorData (a : ArduinoSerial) (now : Nat) (line : String) : Outcome Unit :=
  let data := parseFields now line
  -- Validate that we have the main sensor readings
  if data.Gas = 0 ∧ data.Light = 0 ∧ data.Soil = 0 ∧ data.Water = 0 then .returned a ()
  else if a.mutex then .blocked a
  else
    let a := a.lock
    let a := { a with currentData := some data }
    let sensorData : SensorData :=
      { Light := data.Light, Gas := data.Gas, Soil := data.Soil, Water := data.Water,
        Infrared := data.Infrar, Timestamp := data.Timestamp, Alerts := [] }
    let (alerts, db1) := EvaluateRules a.db data
    let a := { a with db := db1 }
    let sensorData := if alerts.length > 0 then { sensorData with Alerts := alerts } else sensorData
    let acted := if alerts.length > 0 then executeTriggeredActions a alerts else .returned a ()
    acted.andThen fun a _ =>
      let a := { a with dataBuffer := a.dataBuffer ++ [sensorData] }
      let a := { a with dataBuffer := capBuffer a.dataBuffer }
      .returned a.unlock ()

/-- The capture group of the pattern `kw.*?(\d+)` once `kw` has been
matched: the lazy `.*?` skips to the first decimal digit, never across a line
feed, and `\d+` takes the whole run of digits that starts there. -/
def firstDigits : List Char → Option (List Char)
  | [] => none
  | c :: cs =>
    if '0' ≤ c ∧ c ≤ '9' then some ((c :: cs).takeWhile fun d => decide ('0' ≤ d ∧ d ≤ '9'))
    else if c = '\n' then none
    else firstDigits cs

/-- Character-list worker of `findAngle`: the leftmost position at which the
pattern matches. -/
def findAngleChars (kw : List Char) : List Char → Option (List Char)
  | [] => none
  | c :: cs =>
    if kw.isPrefixOf (c :: cs) then
      match firstDigits ((c :: cs).drop kw.length) with
      | some ds => some ds
      | none => findAngleChars kw cs
    else findAngleChars kw cs

/-- The first capture group of
`regexp.MustCompile(kw + ".*?(\d+)").FindStringSubmatch(line)` for a
keyword `kw` of letters; `none` when the pattern does not match. -/
def findAngle (kw : String) (line : String) : Option String :=
  (findAngleChars kw.data line.data).map String.mk

/-- The on/off cascade of `parseActuatorResponse` on the lowered line. -/
def applySwitches (st : ActuatorStates) (line : String) : ActuatorStates :=
  if strings.Contains line "light on" then
    if strings.Contains line "white" then { st with WhiteLight := true }
    else if strings.Contains line "yellow" then { st with YellowLight := true }
    else st
  else if strings.Contains line "light off" then
    if strings.Contains line "white" then { st with WhiteLight := false }
    else if strings.Contains line "yellow" then { st with YellowLight := false }
    else st
  else if strings.Contains line "fan on" then { st with Fan := true }
  else if strings.Contains line "fan off" then { st with Fan := false }
  else if strings.Contains line "relay on" then { st with Relay := true }
  else if strings.Contains line "relay off" then { st with Relay := false }
  else if strings.Contains line "buzzer on" then { st with Buzzer := true }
  else if strings.Contains line "buzzer off" then { st with Buzzer := false }
  else st

/-- The servo part of `parseActuatorResponse` on the lowered line. -/
def applyAngles (st : ActuatorStates) (line : String) : ActuatorStates :=
  let st :=
    match (findAngle "door" line).bind strconv.Atoi with
    | some angle => { st with DoorAngle := angle }
    | none => st
  match (findAngle "window" line).bind strconv.Atoi with
  | some angle => { st with WindowAngle := angle }
  | none => st

/-- Go `ArduinoSerial.parseActuatorResponse`. -/
def parseActuatorResponse (a : ArduinoSerial) (line : String) : Outcome Unit :=
  if a.mutex then .blocked a
  else
    let a := a.lock
    let line := strings.ToLower line
    let a := { a with actuatorStates := applySwitches a.actuatorStates line }
    let a := { a with actuatorStates := applyAngles a.actuatorStates line }
    .returned a.unlock ()

/-- Go `ArduinoSerial.handleIncomingData`. -/
def handleIncomingData (a : ArduinoSerial) (now : Nat) (line : String) : Outcome Unit :=
  -- Handle ACK
  if line = "ACK" then
    if a.mutex then .blocked a
    else
      let a := a.lock
      let a := { a with isReady := true }
      -- Send next queued command
      match a.commandQueue with
      | nextCommand :: rest =>
        let a := { a with commandQueue := rest }
        let a := a.unlock
        -- time.AfterFunc(100*time.Millisecond, func() { a.SendCommand(nextCommand) })
        .returned { a with timers := a.timers ++ [nextCommand] } ()
      | [] => .returned a.unlock ()
  -- Parse sensor data
  else if strings.Contains line "GAS:" then parseSensorData a now line
  else parseActuatorResponse a line

/-! ## server/serial/arduino_serial.go: flushing and teardown -/

/-- Go `ArduinoSerial.saveBufferedData`.  The persist call runs with the mutex
released; `during` is what the other goroutines do to the session in the
meantime. -/
def saveBufferedData (a : ArduinoSerial) (during : ArduinoSerial → ArduinoSerial) :
    Outcome Unit :=
  if a.mutex then .blocked a
  else
    let a := a.lock
    if a.dataBuffer.length = 0 then .returned a.unlock ()
    else
      -- Copy buffer and clear it
      let dataToSave := a.dataBuffer
      let a := { a with dataBuffer := [] }
      let a := a.unlock
      -- Save to database
      let (err, db1) := SaveBulkSensorData a.db dataToSave
      let a := during { a with db := db1 }
      match err with
      | none => .returned a ()
      | some _ =>
        -- Put data back in buffer if save failed
        if a.mutex then .blocked a
        else
          let a := a.lock
          let a := { a with dataBuffer := dataToSave ++ a.dataBuffer }
          .returned a.unlock ()

/-- Go `ArduinoSerial.Disconnect`. -/
def Disconnect (a : ArduinoSerial) (during : ArduinoSerial → ArduinoSerial) :
    Outcome (Option String) :=
  if a.mutex then .blocked a
  else
    let a := a.lock
    if !a.isConnected then .returned a.unlock none
    -- Stop background processes: close(a.stopChan)
    else if a.stopChan then .panicked a.unlock
    else
      let a := { a with stopChan := true }
      -- Save any remaining buffered data
      (saveBufferedData a during).andThen fun a _ =>
        let a :=
          match a.port with
          | some port => { a with closedPorts := a.closedPorts ++ [port], port := none }
          | none => a
        let a := { a with isConnected := false }
        .returned a.unlock none

/-! ## Concrete stores and sessions -/

/-- An empty, healthy database. -/
def emptyDb : Database :=
  { rules := [], findErr := none, finds := 0, createErr := none, sensordatas := [],
    insertErr := none }

/-- The database after a first-run bootstrap in which the four rules are
created one tick apart, at the times `1000` to `1003`. -/
def bootDb : Database := (InitializeDefaultRules emptyDb fun k => 1000 + k).2

/-- A healthy port on which nothing has been written yet. -/
def freshPort : Port := { written := [], writeErr := none }

/-- A session right after its first successful `Connect`: connected, `Ready`,
nothing queued. -/
def readySession : ArduinoSerial :=
  (Connect (NewArduinoSerial bootDb) "COM3" 9600 (.ok freshPort)).state

/-- The session after `A` was sent and `B` was submitted behind it: `Busy`,
with `B` queued. -/
def busySession : ArduinoSerial :=
  (SendCommand (SendCommand readySession "A").state "B").state

/-- A session that is not connected while its channel is `Busy` with a command
queued. -/
def wedgedSession : ArduinoSerial :=
  { NewArduinoSerial bootDb with isReady := false, commandQueue := ["B"] }

/-- The freshly connected session after `A` was sent and not acknowledged:
connected and `Busy`. -/
def awaitingSession : ArduinoSerial := (SendCommand readySession "A").state

/-- The session `Disconnect` leaves behind on `awaitingSession`: the call
never returns, so this is the session at the point where it waits. -/
def haltedSession : ArduinoSerial := (Disconnect awaitingSession id).state

/-- The session `busySession` after the device acknowledged `A`: `B` has left
the queue and waits in a timer. -/
def ackedSession : ArduinoSerial := (handleIncomingData busySession 0 "ACK").state

/-- The run `send A, send B, ACK, send C, timer fires, ACK, timer fires` on the
freshly connected session: `C` is submitted in the pause between the ACK and
the delayed send of `B`. -/
def overtakenSession : ArduinoSerial :=
  let s := (SendCommand ackedSession "C").state
  let s := (fireTimer s 0).state
  let s := (handleIncomingData s 0 "ACK").state
  (fireTimer s 0).state

/-! ## The rule engine in the words of the specification -/

/-- The sample channels a rule may target, by name. -/
def specChannels (sample : SensorReading) : List (String × Int) :=
  [("gas", sample.Gas), ("light", sample.Light), ("soil", sample.Soil),
    ("water", sample.Water)]

/-- The comparison `value op threshold` holds for an operator `op` among
`>`, `<`, `>=`, `<=`, `==`. -/
def specCompare (op : String) (value threshold : Int) : Prop :=
  (op = ">" ∧ value > threshold) ∨ (op = "<" ∧ value < threshold) ∨
  (op = ">=" ∧ value ≥ threshold) ∨ (op = "<=" ∧ value ≤ threshold) ∨
  (op = "==" ∧ value = threshold)

instance specCompareDecidable (op : String) (value threshold : Int) :
    Decidable (specCompare op value threshold) := by
  unfold specCompare
  infer_instance

/-- The alert the specification asks of one rule: the text
`<name>: <sensor> <op> <threshold> (current: <value>)` when the rule is
enabled, targets a known channel and its comparison holds, nothing
otherwise. -/
def specAlert (sample : SensorReading) (rule : Rule) : Option String :=
  if rule.Enabled = true then
    match (specChannels sample).lookup rule.Sensor with
    | some value =>
      if specCompare rule.Operator value rule.Threshold then
        some (String.join [rule.Name, ": ", rule.Sensor, " ", rule.Operator, " ",
          fmt.formatInt rule.Threshold, " (current: ", fmt.formatInt value, ")"])
      else none
    | none => none
  else none

/-- A rule `gas > 700`, before `CreateRule` stamps it. -/
def olderRule : Rule :=
  { Name := "Older", Sensor := "gas", Operator := ">", Threshold := 700,
    Action := "buzzer_on", Enabled := true, Description := "", CreatedAt := 0, UpdatedAt := 0 }

/-- A rule `gas > 600`, before `CreateRule` stamps it. -/
def newerRule : Rule :=
  { Name := "Newer", Sensor := "gas", Operator := ">", Threshold := 600,
    Action := "buzzer_on", Enabled := true, Description := "", CreatedAt := 0, UpdatedAt := 0 }

/-- A store in which `olderRule` was created at time `1` and `newerRule` at
time `2`. -/
def twoRuleDb : Database :=
  (CreateRule (CreateRule emptyDb olderRule 1).2 newerRule 2).2

/-- A sample with `gas = 750`. -/
def gasSample : SensorReading :=
  { Gas := 750, Light := 0, Soil := 0, Water := 0, Infrar := 0, Btn1 := 0, Btn2 := 0,
    Timestamp := 5 }

/-- A store holding `olderRule` alone. -/
def oneRuleDb : Database := (CreateRule emptyDb olderRule 1).2

/-- The freshly connected session after the telemetry line
`GAS:750,LIGHT:500,SOIL:60,WATER:100` was handled at time `5`: the gas rule
and the soil rule of the bootstrapped store, both with action `buzzer_on`,
trigger. -/
def alertedSession : ArduinoSerial :=
  (handleIncomingData readySession 5 "GAS:750,LIGHT:500,SOIL:60,WATER:100").state

/-- The order `Sort("-createdAt")` asks for: newer documents first. -/
def newerFirst (x y : Rule) : Prop := x.CreatedAt ≥ y.CreatedAt

/-! ## The line decoder in the words of the specification -/

/-- One comma-separated part read as a `KEY:VALUE` pair: exactly one colon,
the key with surrounding whitespace trimmed and in lower case, the value a
valid integer once trimmed.  `none` for a part that is not well formed. -/
def specPair (part : String) : Option (String × Int) :=
  match strings.Split part ':' with
  | [k, v] =>
    (strconv.Atoi (strings.TrimSpace v)).map fun n =>
      (strings.ToLower (strings.TrimSpace k), n)
  | _ => none

/-- The recognised keys. -/
def specKeys : List String := ["gas", "light", "soil", "water", "infrar", "btn1", "btn2"]

/-- The value a channel receives from the parts of a line: the integer of the
last well-formed part with that key, zero when there is none. -/
def specChannelValue (key : String) (parts : List String) : Int :=
  match ((parts.filterMap specPair).filter fun kv => kv.1 = key).getLast? with
  | some kv => kv.2
  | none => 0

/-- The `switch key` of `parseSensorData` as a function of key and value. -/
def assignChannel (data : SensorReading) (key : String) (value : Int) : SensorReading :=
  if key = "gas" then { data with Gas := value }
  else if key = "light" then { data with Light := value }
  else if key = "soil" then { data with Soil := value }
  else if key = "water" then { data with Water := value }
  else if key = "infrar" then { data with Infrar := value }
  else if key = "btn1" then { data with Btn1 := value }
  else if key = "btn2" then { data with Btn2 := value }
  else data

/-- The text `KEY:value` of one channel of the canonical line. -/
def pairText (key : String) (value : Int) : String :=
  key ++ ":" ++ fmt.formatInt value

/-- The canonical line of a sample,
`GAS:g,LIGHT:l,SOIL:s,WATER:w,INFRAR:i,BTN1:b1,BTN2:b2`. -/
def canonicalLine (d : SensorReading) : String :=
  String.intercalate ","
    [pairText "GAS" d.Gas, pairText "LIGHT" d.Light, pairText "SOIL" d.Soil,
      pairText "WATER" d.Water, pairText "INFRAR" d.Infrar, pairText "BTN1" d.Btn1,
      pairText "BTN2" d.Btn2]

/-- A decimal digit character. -/
def isDecimal (c : Char) : Prop := '0' ≤ c ∧ c ≤ '9'

instance isDecimalDecidable (c : Char) : Decidable (isDecimal c) := by
  unfold isDecimal
  infer_instance

/-- A value a Go `int` can hold. -/
def fitsInt (v : Int) : Prop := strconv.minInt ≤ v ∧ v ≤ strconv.maxInt

/-- One of the action tokens `executeTriggeredActions` looks for occurs in the
alert text. -/
def mentionsAction (alert : String) : Bool :=
  strings.Contains alert "buzzer_on" || strings.Contains alert "white_light_on" ||
    strings.Contains alert "window_close"

/-- The record `parseSensorData` appends for a decoded sample and its alerts. -/
def recordOf (data : SensorReading) (alerts : List String) : SensorData :=
  { Light := data.Light, Gas := data.Gas, Soil := data.Soil, Water := data.Water,
    Infrared := data.Infrar, Timestamp := data.Timestamp, Alerts := alerts }

/-- A buffered record stamped with the time `t`. -/
def stampedRecord (t : Nat) : SensorData :=
  { Light := 500, Gas := 1, Soil := 0, Water := 0, Infrared := 0, Timestamp := t, Alerts := [] }

/-- The freshly connected session with one hundred buffered records, stamped
`0` to `99`: the buffer is at its high-water mark. -/
def fullSession : ArduinoSerial :=
  { readySession with dataBuffer := (List.range 100).map stampedRecord }

/-- The session `fullSession` over a store whose bulk insert fails. -/
def failingFullSession : ArduinoSerial :=
  { fullSession with db := { fullSession.db with insertErr := some "connection refused" } }

/-- What the listener does while a persist call is in flight, in the
scenarios below: one telemetry line arrives at time `200`. -/
def oneArrival (s : ArduinoSerial) : ArduinoSerial :=
  (handleIncomingData s 200 "GAS:1,LIGHT:500").state

/-- A rule whose name contains the token `buzzer_on`. -/
def tokenNamedRule : Rule :=
  { Name := "buzzer_on when gas is high", Sensor := "gas", Operator := ">", Threshold := 700,
    Action := "buzzer_on", Enabled := true, Description := "", CreatedAt := 0, UpdatedAt := 0 }

/-- A freshly connected session over a store that holds `tokenNamedRule`
alone. -/
def tokenSession : ArduinoSerial :=
  (Connect (NewArduinoSerial (CreateRule emptyDb tokenNamedRule 1).2) "COM3" 9600
    (.ok freshPort)).state

/-- The fields of a rule the bootstrap is specified by: sensor, operator,
threshold, action, enabled. -/
def ruleSummary (r : Rule) : String × String × Int × String × Bool :=
  (r.Sensor, r.Operator, r.Threshold, r.Action, r.Enabled)

/-! ## Rule identifiers, errors and the HTTP boundary of the rule store -/

/-- Go `error` values as the rule endpoints see them.  `==` on errors is
identity of the value: a wrapped error is never equal to the error it wraps. -/
inductive GoError where
  /-- the sentinel `mongo.ErrNoDocuments` (qmgo's `ErrNoSuchDocuments` is the
  same value) -/
  | ErrNoDocuments
  /-- the sentinel `primitive.ErrInvalidHex` -/
  | ErrInvalidHex
  /-- the value `hex.InvalidByteError(b)` -/
  | InvalidByteError (b : Nat)
  /-- the sentinel `hex.ErrLength` -/
  | ErrLength
  /-- any other error value, by its message -/
  | other (msg : String)
  /-- the value `fmt.Errorf(msg + ": %w", inner)` -/
  | wrapped (msg : String) (inner : GoError)
  deriving DecidableEq, Repr

/-- An upper-case hexadecimal digit. -/
def upperHexDigit (d : Nat) : Char :=
  if d < 10 then Char.ofNat (48 + d) else Char.ofNat (55 + d)

/-- The verb `%#U` of `fmt.Sprintf` on the rune of a byte `b`: `U+00XX`,
followed by the quoted character when `strconv.IsPrint` holds for it. -/
def sharpU (b : Nat) : String :=
  "U+00" ++ String.mk [upperHexDigit (b / 16), upperHexDigit (b % 16)] ++
    (if (0x20 ≤ b ∧ b ≤ 0x7E) ∨ (0xA1 ≤ b ∧ b ≤ 0xFF ∧ b ≠ 0xAD) then
      " " ++ String.mk [Char.ofNat 39, Char.ofNat b, Char.ofNat 39]
    else "")

/-- Go `err.Error()`. -/
def GoError.Error : GoError → String
  | .ErrNoDocuments => "mongo: no documents in result"
  | .ErrInvalidHex => "the provided hex string is not a valid ObjectID"
  | .InvalidByteError b => "encoding/hex: invalid byte: " ++ sharpU b
  | .ErrLength => "encoding/hex: odd length hex string"
  | .other msg => msg
  | .wrapped msg inner => msg ++ ": " ++ inner.Error

/-- The bytes of the UTF-8 encoding of a code point. -/
def utf8Bytes (c : Char) : List Nat :=
  let n := c.toNat
  if n < 0x80 then [n]
  else if n < 0x800 then [0xC0 + n / 64, 0x80 + n % 64]
  else if n < 0x10000 then [0xE0 + n / 4096, 0x80 + n / 64 % 64, 0x80 + n % 64]
  else [0xF0 + n / 262144, 0x80 + n / 4096 % 64, 0x80 + n / 64 % 64, 0x80 + n % 64]

/-- Go `[]byte(s)`. -/
def bytesOf (s : String) : List Nat :=
  (s.data.map utf8Bytes).flatten

/-- Value of the hexadecimal digit with the byte value `b` (Go
`reverseHexTable`). -/
def hexValue (b : Nat) : Option Nat :=
  if 48 ≤ b ∧ b ≤ 57 then some (b - 48)
  else if 97 ≤ b ∧ b ≤ 102 then some (b - 87)
  else if 65 ≤ b ∧ b ≤ 70 then some (b - 55)
  else none

/-- Go `hex.Decode`: the bytes are read in pairs; the first byte that is not
a hexadecimal digit is reported, then an odd length. -/
def decodeHex : List Nat → Except GoError (List Nat)
  | [] => .ok []
  | [p] =>
    match hexValue p with
    | none => .error (.InvalidByteError p)
    | some _ => .error .ErrLength
  | p :: q :: rest =>
    match hexValue p with
    | none => .error (.InvalidByteError p)
    | some a =>
      match hexValue q with
      | none => .error (.InvalidByteError q)
      | some b =>
        match decodeHex rest with
        | .error err => .error err
        | .ok bytes => .ok ((a * 16 + b) :: bytes)

/-- Go `primitive.ObjectIDFromHex`: twenty-four hexadecimal digits give the
twelve bytes of the identifier. -/
def ObjectIDFromHex (s : String) : Except GoError (List Nat) :=
  if s.utf8ByteSize ≠ 24 then .error .ErrInvalidHex
  else
    match decodeHex (bytesOf s) with
    | .error err => .error err
    | .ok bytes => .ok bytes

/-- A document of the `rules` collection together with its `_id`. -/
structure RuleDoc where
  id : List Nat
  rule : Rule
  deriving DecidableEq, Repr

/-- Go `RuleService.UpdateRule`.  `updates` is the patch as a function on the
stored rule, `fault` the error of the driver when the store cannot be
reached; `Find(filter).Apply(change, &rule)` answers `mongo.ErrNoDocuments`
when no document has the identifier. -/
def RuleService.UpdateRule (docs : List RuleDoc) (id : String) (updates : Rule → Rule) (now : Nat)
    (fault : Option GoError) : Except GoError Rule × List RuleDoc :=
  match ObjectIDFromHex id with
  | .error err => (.error (.wrapped "invalid rule ID" err), docs)
  | .ok objectID =>
    let applied : Except GoError Rule :=
      match fault with
      | some err => .error err
      | none =>
        match docs.find? fun d => d.id = objectID with
        | none => .error .ErrNoDocuments
        | some d => .ok { updates d.rule with UpdatedAt := now }
    match applied with
    | .error err => (.error (.wrapped "failed to update rule" err), docs)
    | .ok rule =>
      (.ok rule, docs.map fun d => if d.id = objectID then { d with rule := rule } else d)

/-- Go `RuleService.DeleteRule`; `RemoveId` answers `ErrNoSuchDocuments`, that
is `mongo.ErrNoDocuments`, when nothing was deleted. -/
def RuleService.DeleteRule (docs : List RuleDoc) (id : String) (fault : Option GoError) :
    Option GoError × List RuleDoc :=
  match ObjectIDFromHex id with
  | .error err => (some (.wrapped "invalid rule ID" err), docs)
  | .ok objectID =>
    let removed : Option GoError :=
      match fault with
      | some err => some err
      | none => if docs.any fun d => d.id = objectID then none else some .ErrNoDocuments
    match removed with
    | some err => (some (.wrapped "failed to delete rule" err), docs)
    | none => (none, docs.filter fun d => d.id ≠ objectID)

/-- The JSON payload of a response. -/
inductive Payload where
  /-- the object `{"error": msg}` -/
  | error (msg : String)
  /-- the object `{"message": msg}` -/
  | message (msg : String)
  /-- a rule document -/
  | rule (r : Rule)
  deriving DecidableEq, Repr

/-- What a handler writes with `c.JSON(status, payload)`. -/
structure Response where
  status : Nat
  payload : Payload
  deriving DecidableEq, Repr

/-- Go `Handlers.UpdateRule`; `bound` is what `c.ShouldBindJSON(&updates)`
answers. -/
def Handlers.UpdateRule (docs : List RuleDoc) (id : String)
    (bound : Except String (Rule → Rule)) (now : Nat) (fault : Option GoError) :
    Response × List RuleDoc :=
  match bound with
  | .error e => ({ status := 400, payload := .error e }, docs)
  | .ok updates =>
    match RuleService.UpdateRule docs id updates now fault with
    | (.error err, docs1) =>
      if err = GoError.ErrNoDocuments then
        ({ status := 404, payload := .error "Rule not found" }, docs1)
      else ({ status := 500, payload := .error err.Error }, docs1)
    | (.ok rule, docs1) => ({ status := 200, payload := .rule rule }, docs1)

/-- Go `Handlers.DeleteRule`. -/
def Handlers.DeleteRule (docs : List RuleDoc) (id : String) (fault : Option GoError) :
    Response × List RuleDoc :=
  match RuleService.DeleteRule docs id fault with
  | (some err, docs1) =>
    if err = GoError.ErrNoDocuments then
      ({ status := 404, payload := .error "Rule not found" }, docs1)
    else ({ status := 500, payload := .error err.Error }, docs1)
  | (none, docs1) => ({ status := 200, payload := .message "Rule deleted" }, docs1)

/-- A rules collection with one document. -/
def oneDocStore : List RuleDoc :=
  [{ id := [0x50, 0x7f, 0x1f, 0x77, 0xbc, 0xf8, 0x6c, 0xd7, 0x99, 0x43, 0x90, 0x11],
     rule := { olderRule with CreatedAt := 1, UpdatedAt := 1 } }]

/-! ## server/serial/arduino_serial.go: actuator synchronisation -/

/-- A Go `float64`: a finite value `mantissa * 2 ^ exponent` (every finite
`float64` has this form), an infinity, or NaN. -/
inductive Float64 where
  | finite (mantissa : Int) (exponent : Int)
  | inf (negative : Bool)
  | nan
  deriving DecidableEq, Repr

/-- The value of a finite `float64` cut toward zero to a whole number. -/
def Float64.trunc : Float64 → Option Int
  | .finite m e => some (if 0 ≤ e then m * 2 ^ e.toNat else m.tdiv (2 ^ (-e).toNat))
  | _ => none

/-- Go conversion `int(val)` of a `float64`: the value cut toward zero when
that fits an `int`; otherwise the result is implementation-dependent, and
`indefinite` is what the platform yields. -/
def Float64.toInt (indefinite : Int) (val : Float64) : Int :=
  match val.trunc with
  | some t => if strconv.minInt ≤ t ∧ t ≤ strconv.maxInt then t else indefinite
  | none => indefinite

/-- The dynamic value behind a Go `interface{}`, as far as the type
assertions of `SetActuatorState` tell values apart: a `bool`, a `float64`, or
a value of any other type (a string, `nil`, an `int`, a map, ...). -/
inductive GoValue where
  | bool (b : Bool)
  | float64 (f : Float64)
  | other (goType : String)
  deriving DecidableEq, Repr

/-- The `switch actuator` of `SetActuatorState` on the actuator record. -/
def setActuator (st : ActuatorStates) (actuator : String) (value : GoValue)
    (indefinite : Int) : ActuatorStates :=
  if actuator = "white_light" then
    match value with
    | .bool val => { st with WhiteLight := val }
    | _ => st
  else if actuator = "yellow_light" then
    match value with
    | .bool val => { st with YellowLight := val }
    | _ => st
  else if actuator = "relay" then
    match value with
    | .bool val => { st with Relay := val }
    | _ => st
  else if actuator = "fan" then
    match value with
    | .bool val => { st with Fan := val }
    | _ => st
  else if actuator = "buzzer" then
    match value with
    | .bool val => { st with Buzzer := val }
    | _ => st
  else if actuator = "door_angle" then
    match value with
    | .float64 val => { st with DoorAngle := val.toInt indefinite }
    | _ => st
  else if actuator = "window_angle" then
    match value with
    | .float64 val => { st with WindowAngle := val.toInt indefinite }
    | _ => st
  else if actuator = "fan_speed" then
    match value with
    | .float64 val => { st with FanSpeed := val.toInt indefinite }
    | _ => st
  else st

/-- Go `ArduinoSerial.SetActuatorState`. -/
def SetActuatorState (a : ArduinoSerial) (actuator : String) (value : GoValue)
    (indefinite : Int) : Outcome Unit :=
  if a.mutex then .blocked a
  else
    let a := a.lock
    let a := { a with actuatorStates := setActuator a.actuatorStates actuator value indefinite }
    .returned a.unlock ()

/-! ## The actuator shadow in the words of the specification -/

/-- The boolean fields of the actuator state. -/
def specBoolFields : List String := ["white_light", "yellow_light", "relay", "fan", "buzzer"]

/-- The integer fields of the actuator state. -/
def specIntFields : List String := ["door_angle", "window_angle", "fan_speed"]

/-- The whole number a `float64` holds, `none` when its value is not a whole
number. -/
def Float64.wholeValue : Float64 → Option Int
  | .finite m e =>
    if 0 ≤ e then some (m * 2 ^ e.toNat)
    else if (2 ^ (-e).toNat : Int) ∣ m then some (m.tdiv (2 ^ (-e).toNat))
    else none
  | _ => none

/-- The session the first `Disconnect` after the first `Connect` leaves
behind: the call never returns, so this is the session at the point where it
waits. -/
def stuckSession : ArduinoSerial := (Disconnect readySession id).state

/-- A session in the state `Disconnect` is written to leave behind: stop
channel closed, stream released, not connected, mutex free. -/
def stoppedSession : ArduinoSerial :=
  { NewArduinoSerial bootDb with stopChan := true, loops := 2, closedPorts := [freshPort] }

/-- The session after `Connect` succeeded on `stoppedSession`. -/
def restartedSession : ArduinoSerial :=
  (Connect stoppedSession "COM3" 9600 (.ok freshPort)).state

/-! ## Sessions of the telemetry buffer, built by the operations themselves -/

/-- The session where the handling of the line `GAS:750` waits on
`tokenSession`: the handler never returns, so this is the session at the point
where it waits. -/
def unbufferedSession : ArduinoSerial := (handleIncomingData tokenSession 5 "GAS:750").state

/-- The session as the other goroutines find it while the persist call of a
flush on `a` is in progress: the buffer swapped out, the mutex released, the
store as `SaveBulkSensorData` leaves it. -/
def swappedOut (a : ArduinoSerial) : ArduinoSerial :=
  { a with dataBuffer := [], mutex := false, db := (SaveBulkSensorData a.db a.dataBuffer).2 }

/-- A store that holds `tokenNamedRule` alone and whose bulk insert fails. -/
def failingTokenDb : Database :=
  { (CreateRule emptyDb tokenNamedRule 1).2 with insertErr := some "connection refused" }

/-- The session after `Connect` over `failingTokenDb` and the telemetry line
`GAS:1,LIGHT:500` at time `5`: one record is buffered and not yet saved. -/
def unsavedSession : ArduinoSerial :=
  (handleIncomingData
    (Connect (NewArduinoSerial failingTokenDb) "COM3" 9600 (.ok freshPort)).state
    5 "GAS:1,LIGHT:500").state

/-- `Disconnect` is called while a persist call is in flight. -/
def teardownArrives (s : ArduinoSerial) : ArduinoSerial := (Disconnect s id).state

/-- The telemetry line `GAS:750` arrives at time `9` while a persist call is
in flight. -/
def alarmArrives (s : ArduinoSerial) : ArduinoSerial := (handleIncomingData s 9 "GAS:750").state

/-! # Theorems -/

/-! ## Command channel -/

theorem lock_unlock_of_free (a : ArduinoSerial) (h : a.mutex = false) : a.lock.unlock = a := by
  cases a
  simp_all [ArduinoSerial.lock, ArduinoSerial.unlock]

/-- C1: on a connected session whose stream accepts the write, `SendCommand`
in state `Ready` writes exactly `cmd` followed by one newline, sets the channel
`Busy` and leaves the queue as it was; in state `Busy` it writes nothing,
appends `cmd` at the tail of the queue and leaves the channel `Busy`.  Either
way it returns success (`nil`).  The caller is outside the session lock. -/
theorem SendCommand_connected (a : ArduinoSerial) (port : Port) (cmd : String)
    (hfree : a.mutex = false) (hconn : a.isConnected = true) (hport : a.port = some port)
    (hwrite : port.writeErr = none) :
    (a.isReady = true →
      SendCommand a cmd =
        .returned
          { a with
            port := some { port with written := port.written ++ [cmd ++ "\n"] }
            isReady := false } none) ∧
    (a.isReady = false →
      SendCommand a cmd =
        .returned { a with commandQueue := a.commandQueue ++ [cmd] } none) := by
  cases a
  cases port
  simp_all [SendCommand, ArduinoSerial.lock, ArduinoSerial.unlock, Port.Write]

/-- Witness of C1 on the freshly connected session (`Ready`) and on the
session with `A` in flight (`Busy`). -/
theorem SendCommand_connected_witness :
    (SendCommand readySession "A").state.port = some { freshPort with written := ["A\n"] } ∧
    (SendCommand busySession "C").state.commandQueue = ["B", "C"] :=
  ⟨by
    have h := (SendCommand_connected readySession freshPort "A" rfl rfl rfl rfl).1 rfl
    rw [h]; rfl,
   by
    have h := (SendCommand_connected busySession { freshPort with written := ["A\n"] } "C"
      rfl rfl rfl rfl).2 rfl
    rw [h]; rfl⟩

/-- C5: on a session that is not connected (flag cleared or no stream handle)
`SendCommand` fails with the not-connected error and leaves the whole session,
stream, queue and ready flag included, as it was. -/
theorem SendCommand_not_connected (a : ArduinoSerial) (cmd : String)
    (hfree : a.mutex = false) (hdown : a.isConnected = false ∨ a.port = none) :
    SendCommand a cmd = .returned a (some "not connected to Arduino") := by
  cases a
  rcases hdown with h | h <;> simp_all [SendCommand, ArduinoSerial.lock, ArduinoSerial.unlock]

/-- Witness of C5 on the disconnected session with a command queued. -/
theorem SendCommand_not_connected_witness :
    wedgedSession.isConnected = false ∧
    SendCommand wedgedSession "A" = .returned wedgedSession (some "not connected to Arduino") :=
  ⟨rfl, SendCommand_not_connected wedgedSession "A" rfl (Or.inl rfl)⟩

/-- C2 as stated fails: on the connected `Busy` session with `B` queued, the
channel is `Ready`, not `Busy`, right after the ACK has been handled (and `B`
has not been written yet). -/
theorem ack_with_queue_leaves_ready :
    busySession.isConnected = true ∧ busySession.isReady = false ∧
    busySession.commandQueue = ["B"] ∧
    (handleIncomingData busySession 0 "ACK").state.isReady = true ∧
    (handleIncomingData busySession 0 "ACK").state.port = busySession.port := by
  decide

/-- C2, amended: on a connected `Busy` session an ACK with an empty queue makes
the channel `Ready` and transmits nothing; with a non-empty queue it removes
the head, transmits nothing yet, registers the delayed send and leaves the
ready flag set; when that delayed send fires on the session as the ACK left
it, the head followed by a newline is written and the channel is `Busy`. -/
theorem ack_when_busy (a : ArduinoSerial) (port : Port) (now : Nat)
    (hfree : a.mutex = false) (hconn : a.isConnected = true) (hport : a.port = some port)
    (hwrite : port.writeErr = none) (hbusy : a.isReady = false) :
    (a.commandQueue = [] →
      handleIncomingData a now "ACK" = .returned { a with isReady := true } ()) ∧
    (∀ head rest, a.commandQueue = head :: rest →
      handleIncomingData a now "ACK" =
        .returned
          { a with isReady := true, commandQueue := rest, timers := a.timers ++ [head] } () ∧
      fireTimer { a with isReady := true, commandQueue := rest, timers := a.timers ++ [head] }
          a.timers.length =
        .returned
          { a with
            port := some { port with written := port.written ++ [head ++ "\n"] }
            commandQueue := rest
            isReady := false } none) := by
  cases a
  cases port
  refine ⟨?_, ?_⟩
  · intro hq
    simp_all [handleIncomingData, ArduinoSerial.lock, ArduinoSerial.unlock]
  · intro head rest hq
    simp_all [handleIncomingData, fireTimer, SendCommand, ArduinoSerial.lock,
      ArduinoSerial.unlock, Port.Write, List.eraseIdx_append_of_length_le]

/-- Witness of the amended C2 on the session with `A` in flight and `B`
queued. -/
theorem ack_when_busy_witness :
    (handleIncomingData busySession 0 "ACK").state.commandQueue = [] ∧
    (fireTimer ackedSession 0).state.port
      = some { freshPort with written := ["A\n", "B\n"] } := by
  have h := (ack_when_busy busySession { freshPort with written := ["A\n"] } 0
    rfl rfl rfl rfl rfl).2 "B" [] rfl
  refine ⟨?_, ?_⟩
  · rw [h.1]; rfl
  · have h2 := h.2
    exact (congrArg (fun o => (Outcome.state o).port) h2 : _)

/-- C3 fails on the code: `A`, `B`, `C` are submitted in this order, `C`
arrives between the ACK for `A` and the delayed send of `B`, and the stream
receives `A`, `C`, `B`. -/
theorem fifo_overtaken :
    overtakenSession.port = some { freshPort with written := ["A\n", "C\n", "B\n"] } ∧
    overtakenSession.commandQueue = [] := by
  decide

/-- A successful `Connect` installs the port and sets the connected flag; it
assigns neither the ready flag nor the queue, which on a newly constructed
session are `Ready` and empty. -/
theorem Connect_keeps_channel (a : ArduinoSerial) (db : Database) (portName : String)
    (baudRate : Int) (port : Port) (hfree : a.mutex = false) (hdown : a.isConnected = false) :
    Connect a portName baudRate (.ok port) =
      .returned { a with port := some port, isConnected := true, loops := a.loops + 2 } none ∧
    (Connect (NewArduinoSerial db) portName baudRate (.ok port)).state.isReady = true ∧
    (Connect (NewArduinoSerial db) portName baudRate (.ok port)).state.commandQueue = [] := by
  cases a
  simp_all [Connect, NewArduinoSerial, ArduinoSerial.lock, ArduinoSerial.unlock, Outcome.state]

/-- C4 fails on the code: the first successful connect leaves the channel
`Ready`, but the session that is `Busy` with the unacknowledged command `A`
does not get through a disconnect and a reconnect: `Disconnect` never returns,
the `Connect` and the `SendCommand` that follow wait for ever on the mutex it
holds, the session stays connected and `Busy`, and nothing is written after
`A`. -/
theorem reconnect_never_ready :
    (Connect (NewArduinoSerial bootDb) "COM3" 9600 (.ok freshPort)).state.isReady = true ∧
    awaitingSession.isConnected = true ∧ awaitingSession.isReady = false ∧
    Disconnect awaitingSession id = .blocked haltedSession ∧
    Connect haltedSession "COM3" 9600 (.ok freshPort) = .blocked haltedSession ∧
    SendCommand haltedSession "B" = .blocked haltedSession ∧
    haltedSession.isConnected = true ∧ haltedSession.isReady = false ∧
    haltedSession.port = some { freshPort with written := ["A\n"] } := by
  decide

/-! ## Rule engine -/

theorem triggeredBy_iff (op : String) (value threshold : Int) :
    triggeredBy op value threshold = true ↔ specCompare op value threshold := by
  unfold triggeredBy specCompare
  split_ifs <;> simp_all

theorem sensorValueOf_eq_lookup (sample : SensorReading) (sensor : String) :
    sensorValueOf sample sensor = (specChannels sample).lookup sensor := by
  unfold sensorValueOf specChannels
  by_cases h1 : sensor = "gas"
  · simp [h1, List.lookup]
  by_cases h2 : sensor = "light"
  · simp [h2, List.lookup]
  by_cases h3 : sensor = "soil"
  · simp [h3, List.lookup]
  by_cases h4 : sensor = "water"
  · simp [h4, List.lookup]
  have e1 : (sensor == "gas") = false := by simpa using h1
  have e2 : (sensor == "light") = false := by simpa using h2
  have e3 : (sensor == "soil") = false := by simpa using h3
  have e4 : (sensor == "water") = false := by simpa using h4
  simp [h1, h2, h3, h4, List.lookup, e1, e2, e3, e4]

theorem alertText_eq_join (rule : Rule) (value : Int) :
    alertText rule value =
      String.join [rule.Name, ": ", rule.Sensor, " ", rule.Operator, " ",
        fmt.formatInt rule.Threshold, " (current: ", fmt.formatInt value, ")"] := by
  simp [alertText, String.join, String.append_assoc]

theorem evaluateStep_alerts (sample : SensorReading) (acc : List String × List String)
    (rule : Rule) :
    (evaluateStep sample acc rule).2 = acc.2 ++ (specAlert sample rule).toList := by
  unfold evaluateStep specAlert
  rw [← sensorValueOf_eq_lookup]
  cases hE : rule.Enabled <;> simp
  cases hS : sensorValueOf sample rule.Sensor with
  | none => simp
  | some v =>
    simp only []
    by_cases hT : triggeredBy rule.Operator v rule.Threshold = true
    · have hC := (triggeredBy_iff _ _ _).1 hT
      simp [hT, hC, alertText_eq_join]
    · have hC : ¬ specCompare rule.Operator v rule.Threshold :=
        fun h => hT ((triggeredBy_iff _ _ _).2 h)
      simp [hT, hC]

theorem foldl_evaluateStep_alerts (sample : SensorReading) (rules : List Rule)
    (acc : List String × List String) :
    (rules.foldl (evaluateStep sample) acc).2 = acc.2 ++ rules.filterMap (specAlert sample) := by
  induction rules generalizing acc with
  | nil => simp
  | cons r rs ih =>
    rw [List.foldl_cons, ih, evaluateStep_alerts, List.append_assoc]
    congr 1
    cases h : specAlert sample r <;> simp [List.filterMap_cons, h]

theorem evaluateLoop_alerts (sample : SensorReading) (rules : List Rule) :
    (evaluateLoop rules sample).2 = rules.filterMap (specAlert sample) := by
  simp [evaluateLoop, foldl_evaluateStep_alerts]

theorem EvaluateRules_alerts_eq (db : Database) (sample : SensorReading)
    (hok : db.findErr = none) :
    (EvaluateRules db sample).1 =
      (db.rules.insertionSort fun x y => x.CreatedAt ≥ y.CreatedAt).filterMap
        (specAlert sample) := by
  simp [EvaluateRules, GetAllRules, hok, evaluateLoop_alerts]

/-- C7: whatever rule list the store returns, `EvaluateRules` yields exactly
the alerts of the rules that are enabled, target one of gas/light/soil/water
and whose comparison holds, each as `<name>: <sensor> <op> <threshold>
(current: <value>)`, in the order of the list; in particular a single enabled
rule `gas > 700` on `gas = 750` yields exactly one alert, with `gas`, `>`,
`700` and `750` in it, and disabled rules contribute nothing. -/
theorem EvaluateRules_alerts (db db1 : Database) (sample : SensorReading) (rules : List Rule)
    (hfetch : GetAllRules db = (.ok rules, db1)) :
    (EvaluateRules db sample).1 = rules.filterMap (specAlert sample) ∧
    (∀ r : Rule, r.Enabled = true → r.Sensor = "gas" → r.Operator = ">" →
      r.Threshold = 700 → sample.Gas = 750 →
      (evaluateLoop [r] sample).2 = [r.Name ++ ": gas > 700 (current: 750)"]) ∧
    (evaluateLoop (rules.filter fun r => !r.Enabled) sample).2 = [] ∧
    (evaluateLoop rules sample).2 = (evaluateLoop (rules.filter fun r => r.Enabled) sample).2 := by
  refine ⟨?_, ?_, ?_, ?_⟩
  · simp [EvaluateRules, hfetch, evaluateLoop_alerts]
  · intro r hE hS hO hT hG
    have h700 : fmt.formatInt 700 = "700" := by decide
    have h750 : fmt.formatInt 750 = "750" := by decide
    have htail : ": gas > " ++ ("700" ++ (" (current: " ++ ("750" ++ ")")))
        = ": gas > 700 (current: 750)" := by decide
    simp [evaluateLoop, evaluateStep, hE, hS, hO, hT, hG, sensorValueOf, triggeredBy,
      alertText, String.append_assoc, h700, h750, htail]
  · rw [evaluateLoop_alerts, List.filterMap_eq_nil_iff]
    intro r hr
    have hd : r.Enabled = false := by simpa using (List.mem_filter.1 hr).2
    simp [specAlert, hd]
  · rw [evaluateLoop_alerts, evaluateLoop_alerts, List.filterMap_filter]
    apply List.filterMap_congr
    intro r _
    cases hE : r.Enabled <;> simp [specAlert, hE, Option.guard]

/-- Witness of C7 on the store holding one enabled rule `gas > 700` and the
sample `gas = 750`. -/
theorem EvaluateRules_alerts_witness :
    (EvaluateRules oneRuleDb gasSample).1 = ["Older: gas > 700 (current: 750)"] := by
  rw [(EvaluateRules_alerts oneRuleDb (GetAllRules oneRuleDb).2 gasSample
    [{ olderRule with CreatedAt := 1, UpdatedAt := 1 }] rfl).1]
  decide

/-! ## Triggered actions -/

theorem SendCommand_locked (a : ArduinoSerial) (cmd : String) (h : a.mutex = true) :
    SendCommand a cmd = .blocked a := by
  simp [SendCommand, h]

theorem executeTriggeredActions_locked (a : ArduinoSerial) (alerts : List String)
    (h : a.mutex = true) :
    executeTriggeredActions a alerts = .returned a () ∨
      executeTriggeredActions a alerts = .blocked a := by
  induction alerts with
  | nil => left; rfl
  | cons alert rest ih =>
    unfold executeTriggeredActions
    split_ifs <;> simp [SendCommand_locked a _ h, Outcome.andThen, ih]

/-- Handling a telemetry line never hands a command to the stream or to the
queue: `executeTriggeredActions` runs under the session mutex, so it either
finds no action token in the alert texts or waits for ever in `SendCommand`. -/
theorem parseSensorData_sends_nothing (a : ArduinoSerial) (now : Nat) (line : String) :
    (parseSensorData a now line).state.port = a.port ∧
    (parseSensorData a now line).state.commandQueue = a.commandQueue ∧
    (parseSensorData a now line).state.timers = a.timers := by
  unfold parseSensorData
  simp only []
  generalize hev : EvaluateRules a.lock.db (parseFields now line) = ev
  obtain ⟨alerts, db1⟩ := ev
  split_ifs with hz hm hal
  · simp [Outcome.state]
  · simp [Outcome.state]
  · rcases executeTriggeredActions_locked
        { a.lock with currentData := some (parseFields now line), db := db1 } alerts rfl
        with h | h <;>
      (simp only [ArduinoSerial.lock] at h
       simp [h, Outcome.andThen, Outcome.state, ArduinoSerial.lock, ArduinoSerial.unlock])
  · simp [Outcome.andThen, Outcome.state, ArduinoSerial.lock, ArduinoSerial.unlock]

/-- C6 fails on the code: on the freshly connected session with the
bootstrapped rules, the line `GAS:750,LIGHT:500,SOIL:60,WATER:100` triggers the
two `buzzer_on` rules (both alerts are recorded), yet nothing is written to the
stream and nothing is queued: no `BUZZER_ON` is sent. -/
theorem triggered_actions_not_sent :
    alertedSession.dataBuffer.map (fun d => d.Alerts) =
      [["Low Soil Moisture Alert: soil > 50 (current: 60)",
        "Gas Danger Alert: gas > 700 (current: 750)"]] ∧
    alertedSession.port = some freshPort ∧
    alertedSession.commandQueue = [] ∧
    alertedSession.timers = [] := by
  decide

/-! ## Evaluation order -/

theorem GetAllRules_ok (db : Database) (h : db.findErr = none) :
    GetAllRules db =
      (.ok (db.rules.insertionSort fun x y => x.CreatedAt ≥ y.CreatedAt),
        { db with finds := db.finds + 1 }) := by
  simp [GetAllRules, h]

theorem GetAllRules_sorted (db : Database) :
    (db.rules.insertionSort fun x y => x.CreatedAt ≥ y.CreatedAt).Pairwise newerFirst := by
  haveI : IsTotal Rule (fun x y => x.CreatedAt ≥ y.CreatedAt) :=
    ⟨fun x y => Nat.le_total y.CreatedAt x.CreatedAt⟩
  haveI : IsTrans Rule (fun x y => x.CreatedAt ≥ y.CreatedAt) :=
    ⟨fun x y z hxy hyz => Nat.le_trans hyz hxy⟩
  exact List.sorted_insertionSort (fun x y : Rule => x.CreatedAt ≥ y.CreatedAt) db.rules

theorem pair_sublist_of_newerFirst (l : List Rule) (hp : l.Pairwise newerFirst)
    (x y : Rule) (hx : x ∈ l) (hy : y ∈ l) (hlt : y.CreatedAt < x.CreatedAt) :
    List.Sublist [x, y] l := by
  induction l with
  | nil => cases hx
  | cons a t ih =>
    rw [List.pairwise_cons] at hp
    rcases List.mem_cons.1 hx with hxa | hxt
    · rcases List.mem_cons.1 hy with hya | hyt
      · exfalso
        rw [hxa, hya] at hlt
        exact Nat.lt_irrefl _ hlt
      · rw [hxa]
        exact List.Sublist.cons₂ a (List.singleton_sublist.2 hyt)
    · rcases List.mem_cons.1 hy with hya | hyt
      · exfalso
        have h := hp.1 x hxt
        rw [hya] at hlt
        exact Nat.lt_irrefl _ (Nat.lt_of_lt_of_le hlt h)
      · exact List.Sublist.cons a (ih hp.2 hxt hyt)

/-- C8 as stated fails: in the store where `Older` was created before `Newer`
and both rules trigger on `gas = 750`, the alert of `Newer` comes first. -/
theorem newer_rule_alerts_first :
    twoRuleDb.rules.map (fun r => (r.Name, r.CreatedAt)) = [("Older", 1), ("Newer", 2)] ∧
    (EvaluateRules twoRuleDb gasSample).1 =
      ["Newer: gas > 600 (current: 750)", "Older: gas > 700 (current: 750)"] := by
  decide

/-- C8, amended: the rule list fetched by `GetAllRules` holds the rules of the
store ordered newest first, and rules are evaluated in that order: when two
rules both trigger, the alert of the rule created later precedes the alert of
the rule created earlier in the list returned by `EvaluateRules`. -/
theorem alerts_newest_first (db : Database) (sample : SensorReading) (r1 r2 : Rule)
    (t1 t2 : String) (hok : db.findErr = none) (h1 : r1 ∈ db.rules) (h2 : r2 ∈ db.rules)
    (hlt : r1.CreatedAt < r2.CreatedAt) (ht1 : specAlert sample r1 = some t1)
    (ht2 : specAlert sample r2 = some t2) :
    (∃ rules, (GetAllRules db).1 = .ok rules ∧ rules.Pairwise newerFirst ∧
      rules.Perm db.rules) ∧
    List.Sublist [t2, t1] (EvaluateRules db sample).1 := by
  have hs := GetAllRules_sorted db
  refine ⟨⟨_, by rw [GetAllRules_ok db hok], hs, List.perm_insertionSort _ _⟩, ?_⟩
  have hsub := pair_sublist_of_newerFirst _ hs r2 r1
    ((List.mem_insertionSort _).2 h2) ((List.mem_insertionSort _).2 h1) hlt
  have hfm := hsub.filterMap (specAlert sample)
  rw [(EvaluateRules_alerts_eq db sample hok)]
  simpa [List.filterMap_cons, ht1, ht2] using hfm

/-- Witness of the amended C8 on the two-rule store. -/
theorem alerts_newest_first_witness :
    List.Sublist ["Newer: gas > 600 (current: 750)", "Older: gas > 700 (current: 750)"]
      (EvaluateRules twoRuleDb gasSample).1 :=
  (alerts_newest_first twoRuleDb gasSample
    { olderRule with CreatedAt := 1, UpdatedAt := 1 }
    { newerRule with CreatedAt := 2, UpdatedAt := 2 }
    "Older: gas > 700 (current: 750)" "Newer: gas > 600 (current: 750)"
    rfl (by decide) (by decide) (by decide) (by decide) (by decide)).2

/-! ## Line classification and the zero-sample filter -/

theorem containsChars_iff (sub l : List Char) :
    strings.containsChars sub l = true ↔ List.IsInfix sub l := by
  induction l with
  | nil => simp [strings.containsChars, List.isEmpty_iff]
  | cons c cs ih =>
    rw [strings.containsChars, Bool.or_eq_true, ih, List.infix_cons_iff,
      List.isPrefixOf_iff_prefix]

theorem Contains_iff (s substr : String) :
    strings.Contains s substr = true ↔ List.IsInfix substr.data s.data :=
  containsChars_iff substr.data s.data

/-- C9 as stated fails: the line `gas:750,light:10` is handled as an actuator
echo, not as telemetry (no snapshot, no buffered sample), although the decoder
would read `gas = 750, light = 10` from it; `GAS:750,LIGHT:10` is telemetry. -/
theorem lowercase_gas_line_is_echo :
    handleIncomingData readySession 5 "gas:750,light:10" =
      parseActuatorResponse readySession "gas:750,light:10" ∧
    (handleIncomingData readySession 5 "gas:750,light:10").state.currentData = none ∧
    (handleIncomingData readySession 5 "gas:750,light:10").state.dataBuffer = [] ∧
    (parseFields 5 "gas:750,light:10").Gas = 750 ∧
    (parseFields 5 "gas:750,light:10").Light = 10 ∧
    (handleIncomingData readySession 5 "GAS:750,LIGHT:10").state.currentData =
      some { Gas := 750, Light := 10, Soil := 0, Water := 0, Infrar := 0, Btn1 := 0,
             Btn2 := 0, Timestamp := 5 } := by
  decide

/-- C9, amended: a line other than `ACK` is decoded as telemetry if and only
if it contains the literal text `GAS:` (capitals, matched exactly); every
other line is handled as an actuator echo. -/
theorem handleIncomingData_classifies (a : ArduinoSerial) (now : Nat) (line : String)
    (hne : line ≠ "ACK") :
    (List.IsInfix "GAS:".data line.data →
      handleIncomingData a now line = parseSensorData a now line) ∧
    (¬ List.IsInfix "GAS:".data line.data →
      handleIncomingData a now line = parseActuatorResponse a line) := by
  refine ⟨fun h => ?_, fun h => ?_⟩
  · have hc := (Contains_iff line "GAS:").2 h
    simp [handleIncomingData, hne, hc]
  · have hc : strings.Contains line "GAS:" = false := by
      cases hb : strings.Contains line "GAS:"
      · rfl
      · exact absurd ((Contains_iff line "GAS:").1 hb) h
    simp [handleIncomingData, hne, hc]

/-- Witness of the amended C9 on an upper-case telemetry line. -/
theorem handleIncomingData_classifies_witness :
    handleIncomingData readySession 5 "GAS:750,LIGHT:10" =
      parseSensorData readySession 5 "GAS:750,LIGHT:10" :=
  (handleIncomingData_classifies readySession 5 "GAS:750,LIGHT:10" (by decide)).1
    ((Contains_iff "GAS:750,LIGHT:10" "GAS:").1 (by decide))

/-- C10: a telemetry line whose decoded gas, light, soil and water values are
all zero is dropped: the handler returns with the session exactly as it was,
so the buffer, the snapshot, the stream, the queue and the store (no rule
query) are untouched. -/
theorem zero_sample_discarded (a : ArduinoSerial) (now : Nat) (line : String)
    (hne : line ≠ "ACK") (htel : strings.Contains line "GAS:" = true)
    (hgas : (parseFields now line).Gas = 0) (hlight : (parseFields now line).Light = 0)
    (hsoil : (parseFields now line).Soil = 0) (hwater : (parseFields now line).Water = 0) :
    handleIncomingData a now line = .returned a () ∧
    parseSensorData a now line = .returned a () := by
  have hp : parseSensorData a now line = .returned a () := by
    simp [parseSensorData, hgas, hlight, hsoil, hwater]
  refine ⟨?_, hp⟩
  simp [handleIncomingData, hne, htel, hp]

/-- Witness of C10 on a line with zero primary channels and non-zero infrared
and button values. -/
theorem zero_sample_discarded_witness :
    handleIncomingData readySession 5 "GAS:0,LIGHT:0,SOIL:0,WATER:0,INFRAR:1,BTN1:1,BTN2:0" =
      .returned readySession () :=
  (zero_sample_discarded readySession 5 "GAS:0,LIGHT:0,SOIL:0,WATER:0,INFRAR:1,BTN1:1,BTN2:0"
    (by decide) (by decide) (by decide) (by decide) (by decide) (by decide)).1

/-! ## Line decoding -/

theorem parsePart_eq_assign (data : SensorReading) (part : String) :
    parsePart data part =
      match specPair part with
      | some kv => assignChannel data kv.1 kv.2
      | none => data := by
  unfold parsePart specPair
  generalize strings.Split part ':' = l
  rcases l with _ | ⟨k, _ | ⟨v, _ | ⟨w, t⟩⟩⟩
  · rfl
  · rfl
  · cases hA : strconv.Atoi (strings.TrimSpace v) with
    | none => simp [hA]
    | some n => simp [hA, assignChannel]
  · rfl

/-- The value of one channel after the parts were folded in, for a channel
read by `proj` and written under `key`. -/
theorem foldl_parsePart_channel (proj : SensorReading → Int) (key : String)
    (hproj : ∀ (d : SensorReading) (k : String) (v : Int),
      proj (assignChannel d k v) = if k = key then v else proj d)
    (parts : List String) (data : SensorReading) :
    proj (parts.foldl parsePart data) =
      match ((parts.filterMap specPair).filter fun kv => kv.1 = key).getLast? with
      | some kv => kv.2
      | none => proj data := by
  induction parts generalizing data with
  | nil => simp
  | cons p ps ih =>
    rw [List.foldl_cons, ih, parsePart_eq_assign]
    cases hp : specPair p with
    | none => simp [List.filterMap_cons, hp]
    | some kv =>
      simp only [List.filterMap_cons, hp]
      by_cases hk : kv.1 = key
      · simp only [List.filter_cons, hk, decide_True, if_true, hproj]
        rw [List.getLast?_cons]
        cases hl : (List.filter (fun kv => decide (kv.1 = key))
            (List.filterMap specPair ps)).getLast? <;> simp
      · simp [List.filter_cons, hk, hproj]

theorem assignChannel_Gas (d : SensorReading) (k : String) (v : Int) :
    (assignChannel d k v).Gas = if k = "gas" then v else d.Gas := by
  unfold assignChannel; split_ifs <;> simp_all

theorem assignChannel_Light (d : SensorReading) (k : String) (v : Int) :
    (assignChannel d k v).Light = if k = "light" then v else d.Light := by
  unfold assignChannel; split_ifs <;> simp_all

theorem assignChannel_Soil (d : SensorReading) (k : String) (v : Int) :
    (assignChannel d k v).Soil = if k = "soil" then v else d.Soil := by
  unfold assignChannel; split_ifs <;> simp_all

theorem assignChannel_Water (d : SensorReading) (k : String) (v : Int) :
    (assignChannel d k v).Water = if k = "water" then v else d.Water := by
  unfold assignChannel; split_ifs <;> simp_all

theorem assignChannel_Infrar (d : SensorReading) (k : String) (v : Int) :
    (assignChannel d k v).Infrar = if k = "infrar" then v else d.Infrar := by
  unfold assignChannel; split_ifs <;> simp_all

theorem assignChannel_Btn1 (d : SensorReading) (k : String) (v : Int) :
    (assignChannel d k v).Btn1 = if k = "btn1" then v else d.Btn1 := by
  unfold assignChannel; split_ifs <;> simp_all

theorem assignChannel_Btn2 (d : SensorReading) (k : String) (v : Int) :
    (assignChannel d k v).Btn2 = if k = "btn2" then v else d.Btn2 := by
  unfold assignChannel; split_ifs <;> simp_all

theorem assignChannel_unknown (d : SensorReading) (k : String) (v : Int)
    (h : k ∉ specKeys) : assignChannel d k v = d := by
  simp only [specKeys, List.mem_cons, List.mem_singleton, not_or, List.mem_nil_iff,
    or_false] at h
  obtain ⟨h1, h2, h3, h4, h5, h6, h7⟩ := h
  simp [assignChannel, h1, h2, h3, h4, h5, h6, h7]

/-- C11: the comma-separated parts of a telemetry line are decoded one by one.
A part that is not exactly one `KEY:VALUE` pair with an integer value, or whose
key is not recognised, leaves the sample as it was; each of gas, light, soil,
water, infrar, btn1, btn2 (key trimmed, any letter case) ends with the integer
of its last well-formed part, and with zero when it has none. -/
theorem parseFields_channels (now : Nat) (line : String) :
    (parseFields now line).Gas = specChannelValue "gas" (strings.Split line ',') ∧
    (parseFields now line).Light = specChannelValue "light" (strings.Split line ',') ∧
    (parseFields now line).Soil = specChannelValue "soil" (strings.Split line ',') ∧
    (parseFields now line).Water = specChannelValue "water" (strings.Split line ',') ∧
    (parseFields now line).Infrar = specChannelValue "infrar" (strings.Split line ',') ∧
    (parseFields now line).Btn1 = specChannelValue "btn1" (strings.Split line ',') ∧
    (parseFields now line).Btn2 = specChannelValue "btn2" (strings.Split line ',') ∧
    (∀ (data : SensorReading) (part : String), specPair part = none →
      parsePart data part = data) ∧
    (∀ (data : SensorReading) (part : String) (kv : String × Int),
      specPair part = some kv → kv.1 ∉ specKeys → parsePart data part = data) := by
  refine ⟨?_, ?_, ?_, ?_, ?_, ?_, ?_, ?_, ?_⟩
  · exact foldl_parsePart_channel (fun d => d.Gas) "gas" assignChannel_Gas _ _
  · exact foldl_parsePart_channel (fun d => d.Light) "light" assignChannel_Light _ _
  · exact foldl_parsePart_channel (fun d => d.Soil) "soil" assignChannel_Soil _ _
  · exact foldl_parsePart_channel (fun d => d.Water) "water" assignChannel_Water _ _
  · exact foldl_parsePart_channel (fun d => d.Infrar) "infrar" assignChannel_Infrar _ _
  · exact foldl_parsePart_channel (fun d => d.Btn1) "btn1" assignChannel_Btn1 _ _
  · exact foldl_parsePart_channel (fun d => d.Btn2) "btn2" assignChannel_Btn2 _ _
  · intro data part h
    rw [parsePart_eq_assign, h]
  · intro data part kv h hk
    rw [parsePart_eq_assign, h]
    exact assignChannel_unknown data kv.1 kv.2 hk

/-! ## Decimal text of an integer and back -/

theorem digitChar_decimal : ∀ k, k < 10 →
    isDecimal (Nat.digitChar k) ∧ (Nat.digitChar k).toNat - 48 = k := by
  decide

theorem toDigitsCore_append (f : Nat) : ∀ (n : Nat) (ds : List Char),
    Nat.toDigitsCore 10 f n ds = Nat.toDigitsCore 10 f n [] ++ ds := by
  induction f with
  | zero => intro n ds; simp [Nat.toDigitsCore]
  | succ f ih =>
    intro n ds
    simp only [Nat.toDigitsCore]
    split_ifs with h
    · simp
    · rw [ih (n / 10) (Nat.digitChar (n % 10) :: ds), ih (n / 10) [Nat.digitChar (n % 10)]]
      simp

theorem parseDigits_append (l r : List Char) : ∀ acc : Nat,
    strconv.parseDigits (l ++ r) acc =
      (strconv.parseDigits l acc).bind (strconv.parseDigits r) := by
  induction l with
  | nil => intro acc; simp [strconv.parseDigits]
  | cons c cs ih =>
    intro acc
    simp only [List.cons_append, strconv.parseDigits]
    split_ifs with h
    · exact ih _
    · rfl

theorem parseDigits_toDigitsCore (f : Nat) : ∀ n, n < f →
    strconv.parseDigits (Nat.toDigitsCore 10 f n []) 0 = some n := by
  induction f with
  | zero => intro n h; exact absurd h (Nat.not_lt_zero n)
  | succ f ih =>
    intro n hn
    simp only [Nat.toDigitsCore]
    have hd := digitChar_decimal (n % 10) (Nat.mod_lt n (by decide))
    split_ifs with h
    · have hlt : n < 10 := by omega
      have hmod : n % 10 = n := Nat.mod_eq_of_lt hlt
      rw [hmod] at hd
      have h1 : '0' ≤ Nat.digitChar n := hd.1.1
      have h2 : Nat.digitChar n ≤ '9' := hd.1.2
      simp [strconv.parseDigits, hmod, h1, h2, hd.2]
    · have hq : n / 10 < f := by omega
      rw [toDigitsCore_append, parseDigits_append, ih (n / 10) hq]
      have h1 : '0' ≤ Nat.digitChar (n % 10) := hd.1.1
      have h2 : Nat.digitChar (n % 10) ≤ '9' := hd.1.2
      simp only [Option.some_bind, strconv.parseDigits, h1, h2, and_self, if_true, hd.2]
      congr 1
      omega

theorem toDigitsCore_decimal (f : Nat) : ∀ n, ∀ c ∈ Nat.toDigitsCore 10 f n [], isDecimal c := by
  induction f with
  | zero => intro n c hc; simp [Nat.toDigitsCore] at hc
  | succ f ih =>
    intro n c hc
    simp only [Nat.toDigitsCore] at hc
    have hd := (digitChar_decimal (n % 10) (Nat.mod_lt n (by decide))).1
    split_ifs at hc with h
    · simp at hc; rw [hc]; exact hd
    · rw [toDigitsCore_append] at hc
      rcases List.mem_append.1 hc with h1 | h1
      · exact ih _ c h1
      · simp at h1; rw [h1]; exact hd

theorem toDigitsCore_ne_nil (f n : Nat) : Nat.toDigitsCore 10 (f + 1) n [] ≠ [] := by
  simp only [Nat.toDigitsCore]
  split_ifs with h
  · simp
  · rw [toDigitsCore_append]; simp

theorem repr_data (n : Nat) : (Nat.repr n).data = Nat.toDigitsCore 10 (n + 1) n [] := rfl

theorem parseDigits_repr (n : Nat) : strconv.parseDigits (Nat.repr n).data 0 = some n := by
  rw [repr_data]; exact parseDigits_toDigitsCore (n + 1) n (Nat.lt_succ_self n)

theorem repr_decimal (n : Nat) : ∀ c ∈ (Nat.repr n).data, isDecimal c := by
  rw [repr_data]; exact toDigitsCore_decimal (n + 1) n

theorem repr_ne_nil (n : Nat) : (Nat.repr n).data ≠ [] := by
  rw [repr_data]; exact toDigitsCore_ne_nil n n

theorem isDecimal_toNat (c : Char) (h : isDecimal c) : 48 ≤ c.toNat ∧ c.toNat ≤ 57 :=
  ⟨h.1, h.2⟩

theorem isDecimal_plain (c : Char) (h : isDecimal c) :
    c ≠ ',' ∧ c ≠ ':' ∧ c ≠ '-' ∧ c ≠ '+' ∧ unicode.IsSpace c = false := by
  have hn := isDecimal_toNat c h
  refine ⟨?_, ?_, ?_, ?_, ?_⟩
  · rintro rfl; exact absurd hn (by decide)
  · rintro rfl; exact absurd hn (by decide)
  · rintro rfl; exact absurd hn (by decide)
  · rintro rfl; exact absurd hn (by decide)
  · simp only [unicode.IsSpace, Bool.or_eq_false_iff, beq_eq_false_iff_ne, ne_eq,
      Bool.and_eq_false_imp, decide_eq_true_eq, decide_eq_false_iff_not, not_le]
    omega

theorem Atoi_of_digits (s : String) (c : Char) (cs : List Char) (hs : s.data = c :: cs)
    (hc : isDecimal c) :
    strconv.Atoi s =
      (strconv.parseDigits (c :: cs) 0).bind fun n => strconv.inRange (n : Int) := by
  have hp := isDecimal_plain c hc
  unfold strconv.Atoi
  rw [hs]
  split
  · rename_i heq; cases heq
  · rename_i ds heq
    injection heq with h1 h2
    exact absurd h1 hp.2.2.1
  · rename_i ds heq
    injection heq with h1 h2
    exact absurd h1 hp.2.2.2.1
  · rfl

theorem Atoi_formatInt (v : Int) (hlo : strconv.minInt ≤ v) (hhi : v ≤ strconv.maxInt) :
    strconv.Atoi (fmt.formatInt v) = some v := by
  unfold fmt.formatInt
  split_ifs with hneg
  · have hne := repr_ne_nil v.natAbs
    have hdata : ("-" ++ Nat.repr v.natAbs).data = '-' :: (Nat.repr v.natAbs).data := by
      simp [String.data_append]
    unfold strconv.Atoi
    rw [hdata]
    have hemp : (Nat.repr v.natAbs).data.isEmpty = false := by
      cases h : (Nat.repr v.natAbs).data with
      | nil => exact absurd h hne
      | cons _ _ => rfl
    simp only [hemp, parseDigits_repr, Option.some_bind, strconv.inRange]
    have habs : -((v.natAbs : Nat) : Int) = v := by omega
    rw [habs]
    simp [hlo, hhi]
  · have hne := repr_ne_nil v.toNat
    cases hd : (Nat.repr v.toNat).data with
    | nil => exact absurd hd hne
    | cons c cs =>
      have hc : isDecimal c := repr_decimal v.toNat c (by rw [hd]; exact List.mem_cons_self c cs)
      rw [Atoi_of_digits _ c cs hd hc, ← hd, parseDigits_repr]
      simp only [Option.some_bind, strconv.inRange]
      have hnat : ((v.toNat : Nat) : Int) = v := by omega
      rw [hnat]
      simp [hlo, hhi]

theorem formatInt_chars (v : Int) : ∀ c ∈ (fmt.formatInt v).data, c = '-' ∨ isDecimal c := by
  intro c hc
  unfold fmt.formatInt at hc
  split_ifs at hc with hneg
  · simp only [String.data_append, List.mem_append] at hc
    rcases hc with h | h
    · left; simpa using h
    · right; exact repr_decimal _ c h
  · right; exact repr_decimal _ c hc

theorem formatInt_plain (v : Int) :
    ∀ c ∈ (fmt.formatInt v).data, c ≠ ',' ∧ c ≠ ':' ∧ unicode.IsSpace c = false := by
  intro c hc
  rcases formatInt_chars v c hc with h | h
  · subst h; decide
  · have hp := isDecimal_plain c h
    exact ⟨hp.1, hp.2.1, hp.2.2.2.2⟩

/-! ## Splitting and trimming plain text -/

theorem splitChars_no_sep (sep : Char) (l : List Char) (h : sep ∉ l) :
    strings.splitChars sep l = [l] := by
  induction l with
  | nil => rfl
  | cons c cs ih =>
    have hc : c ≠ sep := fun e => h (by rw [e]; exact List.mem_cons_self _ _)
    have hcs : sep ∉ cs := fun e => h (List.mem_cons_of_mem _ e)
    simp [strings.splitChars, hc, ih hcs]

theorem splitChars_append_sep (sep : Char) (l r : List Char) (h : sep ∉ l) :
    strings.splitChars sep (l ++ sep :: r) = l :: strings.splitChars sep r := by
  induction l with
  | nil => simp [strings.splitChars]
  | cons c cs ih =>
    have hc : c ≠ sep := fun e => h (by rw [e]; exact List.mem_cons_self _ _)
    have hcs : sep ∉ cs := fun e => h (List.mem_cons_of_mem _ e)
    simp [strings.splitChars, hc, ih hcs]

theorem dropWhile_plain (p : Char → Bool) (l : List Char) (h : ∀ c ∈ l, p c = false) :
    l.dropWhile p = l := by
  cases l with
  | nil => rfl
  | cons c cs => simp [List.dropWhile, h c (List.mem_cons_self _ _)]

theorem rdropWhile_plain (p : Char → Bool) (l : List Char) (h : ∀ c ∈ l, p c = false) :
    l.rdropWhile p = l := by
  unfold List.rdropWhile
  rw [dropWhile_plain p l.reverse (fun c hc => h c (List.mem_reverse.1 hc)), List.reverse_reverse]

theorem TrimSpace_plain (s : String) (h : ∀ c ∈ s.data, unicode.IsSpace c = false) :
    strings.TrimSpace s = s := by
  unfold strings.TrimSpace
  rw [dropWhile_plain _ _ h, rdropWhile_plain _ _ h]

theorem Atoi_fits (s : String) (v : Int) (h : strconv.Atoi s = some v) : fitsInt v := by
  have key : ∀ (o : Option Nat) (g : Nat → Int),
      (o.bind fun n => strconv.inRange (g n)) = some v → fitsInt v := by
    intro o g ho
    cases o with
    | none => simp at ho
    | some n =>
      simp only [Option.some_bind, strconv.inRange] at ho
      split_ifs at ho with hr
      injection ho with ho
      rw [← ho]; exact hr
  unfold strconv.Atoi at h
  split at h
  · simp at h
  · split_ifs at h
    exact key _ (fun n => -(n : Int)) h
  · split_ifs at h
    exact key _ (fun n => (n : Int)) h
  · exact key _ (fun n => (n : Int)) h

theorem specPair_pairText (K : String) (v : Int) (hcolon : ':' ∉ K.data)
    (hplain : ∀ c ∈ K.data, unicode.IsSpace c = false) (hv : fitsInt v) :
    specPair (pairText K v) = some (strings.ToLower K, v) := by
  have hval : ':' ∉ (fmt.formatInt v).data := fun hm => (formatInt_plain v _ hm).2.1 rfl
  have hsplit : strings.Split (pairText K v) ':' = [K, fmt.formatInt v] := by
    unfold strings.Split pairText
    have hd : (K ++ ":" ++ fmt.formatInt v).data = K.data ++ ':' :: (fmt.formatInt v).data := by
      simp [String.data_append]
    rw [hd, splitChars_append_sep ':' _ _ hcolon, splitChars_no_sep ':' _ hval]
    rfl
  unfold specPair
  rw [hsplit]
  simp only []
  rw [TrimSpace_plain K hplain,
    TrimSpace_plain (fmt.formatInt v) (fun c hc => (formatInt_plain v c hc).2.2),
    Atoi_formatInt v hv.1 hv.2]
  rfl

theorem pairText_no_comma (K : String) (v : Int) (hK : ',' ∉ K.data) :
    ',' ∉ (pairText K v).data := by
  unfold pairText
  simp only [String.data_append, List.mem_append, not_or]
  refine ⟨⟨hK, by decide⟩, fun hm => (formatInt_plain v _ hm).1 rfl⟩

theorem Split_canonicalLine (d : SensorReading) :
    strings.Split (canonicalLine d) ',' =
      [pairText "GAS" d.Gas, pairText "LIGHT" d.Light, pairText "SOIL" d.Soil,
        pairText "WATER" d.Water, pairText "INFRAR" d.Infrar, pairText "BTN1" d.Btn1,
        pairText "BTN2" d.Btn2] := by
  have h1 := pairText_no_comma "GAS" d.Gas (by decide)
  have h2 := pairText_no_comma "LIGHT" d.Light (by decide)
  have h3 := pairText_no_comma "SOIL" d.Soil (by decide)
  have h4 := pairText_no_comma "WATER" d.Water (by decide)
  have h5 := pairText_no_comma "INFRAR" d.Infrar (by decide)
  have h6 := pairText_no_comma "BTN1" d.Btn1 (by decide)
  have h7 := pairText_no_comma "BTN2" d.Btn2 (by decide)
  have hd : (canonicalLine d).data =
      (pairText "GAS" d.Gas).data ++ ',' :: ((pairText "LIGHT" d.Light).data ++ ',' ::
      ((pairText "SOIL" d.Soil).data ++ ',' :: ((pairText "WATER" d.Water).data ++ ',' ::
      ((pairText "INFRAR" d.Infrar).data ++ ',' :: ((pairText "BTN1" d.Btn1).data ++ ',' ::
      (pairText "BTN2" d.Btn2).data))))) := by
    simp [canonicalLine, String.intercalate, String.intercalate.go, String.data_append]
  unfold strings.Split
  rw [hd, splitChars_append_sep ',' _ _ h1, splitChars_append_sep ',' _ _ h2,
    splitChars_append_sep ',' _ _ h3, splitChars_append_sep ',' _ _ h4,
    splitChars_append_sep ',' _ _ h5, splitChars_append_sep ',' _ _ h6,
    splitChars_no_sep ',' _ h7]
  rfl

theorem parseFields_canonicalLine (now : Nat) (d : SensorReading)
    (hg : fitsInt d.Gas) (hl : fitsInt d.Light) (hs : fitsInt d.Soil) (hw : fitsInt d.Water)
    (hi : fitsInt d.Infrar) (h1 : fitsInt d.Btn1) (h2 : fitsInt d.Btn2) :
    parseFields now (canonicalLine d) = { d with Timestamp := now } := by
  unfold parseFields
  rw [Split_canonicalLine]
  simp only [List.foldl_cons, List.foldl_nil, parsePart_eq_assign]
  rw [specPair_pairText "GAS" d.Gas (by decide) (by decide) hg]
  simp only []
  rw [specPair_pairText "LIGHT" d.Light (by decide) (by decide) hl]
  simp only []
  rw [specPair_pairText "SOIL" d.Soil (by decide) (by decide) hs]
  simp only []
  rw [specPair_pairText "WATER" d.Water (by decide) (by decide) hw]
  simp only []
  rw [specPair_pairText "INFRAR" d.Infrar (by decide) (by decide) hi]
  simp only []
  rw [specPair_pairText "BTN1" d.Btn1 (by decide) (by decide) h1]
  simp only []
  rw [specPair_pairText "BTN2" d.Btn2 (by decide) (by decide) h2]
  simp only []
  have e1 : strings.ToLower "GAS" = "gas" := by decide
  have e2 : strings.ToLower "LIGHT" = "light" := by decide
  have e3 : strings.ToLower "SOIL" = "soil" := by decide
  have e4 : strings.ToLower "WATER" = "water" := by decide
  have e5 : strings.ToLower "INFRAR" = "infrar" := by decide
  have e6 : strings.ToLower "BTN1" = "btn1" := by decide
  have e7 : strings.ToLower "BTN2" = "btn2" := by decide
  rw [e1, e2, e3, e4, e5, e6, e7]
  cases d
  simp [assignChannel]

theorem specPair_fits (part : String) (kv : String × Int) (h : specPair part = some kv) :
    fitsInt kv.2 := by
  unfold specPair at h
  generalize strings.Split part ':' = l at h
  rcases l with _ | ⟨k, _ | ⟨v, _ | ⟨w, t⟩⟩⟩
  · simp at h
  · simp at h
  · cases hA : strconv.Atoi (strings.TrimSpace v) with
    | none => simp [hA] at h
    | some n =>
      simp only [hA, Option.map_some'] at h
      injection h with h
      rw [← h]
      exact Atoi_fits _ n hA
  · simp at h

theorem specChannelValue_fits (key : String) (parts : List String) :
    fitsInt (specChannelValue key parts) := by
  unfold specChannelValue
  cases hl : ((parts.filterMap specPair).filter fun kv => kv.1 = key).getLast? with
  | none => exact ⟨by decide, by decide⟩
  | some kv =>
    have hmem := List.mem_of_getLast?_eq_some hl
    have hmem2 := (List.mem_filter.1 hmem).1
    obtain ⟨part, _, hpart⟩ := List.mem_filterMap.1 hmem2
    exact specPair_fits part kv hpart

theorem canonicalLine_data (d : SensorReading) :
    (canonicalLine d).data =
      'G' :: 'A' :: 'S' :: ':' :: ((fmt.formatInt d.Gas).data ++ ',' ::
      ((pairText "LIGHT" d.Light).data ++ ',' ::
      ((pairText "SOIL" d.Soil).data ++ ',' :: ((pairText "WATER" d.Water).data ++ ',' ::
      ((pairText "INFRAR" d.Infrar).data ++ ',' :: ((pairText "BTN1" d.Btn1).data ++ ',' ::
      (pairText "BTN2" d.Btn2).data)))))) := by
  have hd : (canonicalLine d).data =
      (pairText "GAS" d.Gas).data ++ ',' :: ((pairText "LIGHT" d.Light).data ++ ',' ::
      ((pairText "SOIL" d.Soil).data ++ ',' :: ((pairText "WATER" d.Water).data ++ ',' ::
      ((pairText "INFRAR" d.Infrar).data ++ ',' :: ((pairText "BTN1" d.Btn1).data ++ ',' ::
      (pairText "BTN2" d.Btn2).data))))) := by
    simp [canonicalLine, String.intercalate, String.intercalate.go, String.data_append]
  have hp : (pairText "GAS" d.Gas).data = 'G' :: 'A' :: 'S' :: ':' :: (fmt.formatInt d.Gas).data := by
    unfold pairText
    simp only [String.data_append]
    rfl
  rw [hd, hp]
  rfl

theorem canonicalLine_telemetry (d : SensorReading) :
    strings.Contains (canonicalLine d) "GAS:" = true ∧ canonicalLine d ≠ "ACK" := by
  constructor
  · rw [Contains_iff, canonicalLine_data]
    exact ⟨[], _, rfl⟩
  · intro h
    have hd := congrArg String.data h
    rw [canonicalLine_data] at hd
    have hh : some 'G' = some 'A' := congrArg List.head? hd
    exact absurd hh (by decide)

theorem parseSensorData_snapshot (a : ArduinoSerial) (now : Nat) (line : String)
    (hfree : a.mutex = false)
    (hnz : ¬ ((parseFields now line).Gas = 0 ∧ (parseFields now line).Light = 0 ∧
      (parseFields now line).Soil = 0 ∧ (parseFields now line).Water = 0)) :
    (parseSensorData a now line).state.currentData = some (parseFields now line) := by
  unfold parseSensorData
  simp only []
  generalize hev : EvaluateRules a.lock.db (parseFields now line) = ev
  obtain ⟨alerts, db1⟩ := ev
  rw [if_neg hnz]
  simp only [hfree, Bool.false_eq_true, if_false]
  split_ifs with hal
  · rcases executeTriggeredActions_locked
        { a.lock with currentData := some (parseFields now line), db := db1 } alerts rfl
        with h | h <;>
      (simp only [ArduinoSerial.lock] at h
       simp [h, Outcome.andThen, Outcome.state, ArduinoSerial.lock, ArduinoSerial.unlock])
  · simp [Outcome.andThen, Outcome.state, ArduinoSerial.lock, ArduinoSerial.unlock]

theorem parseFields_eq_spec (now : Nat) (line : String) :
    (parseFields now line).Gas = specChannelValue "gas" (strings.Split line ',') ∧
    (parseFields now line).Light = specChannelValue "light" (strings.Split line ',') ∧
    (parseFields now line).Soil = specChannelValue "soil" (strings.Split line ',') ∧
    (parseFields now line).Water = specChannelValue "water" (strings.Split line ',') ∧
    (parseFields now line).Infrar = specChannelValue "infrar" (strings.Split line ',') ∧
    (parseFields now line).Btn1 = specChannelValue "btn1" (strings.Split line ',') ∧
    (parseFields now line).Btn2 = specChannelValue "btn2" (strings.Split line ',') :=
  ⟨foldl_parsePart_channel (fun d => d.Gas) "gas" assignChannel_Gas _ _,
   foldl_parsePart_channel (fun d => d.Light) "light" assignChannel_Light _ _,
   foldl_parsePart_channel (fun d => d.Soil) "soil" assignChannel_Soil _ _,
   foldl_parsePart_channel (fun d => d.Water) "water" assignChannel_Water _ _,
   foldl_parsePart_channel (fun d => d.Infrar) "infrar" assignChannel_Infrar _ _,
   foldl_parsePart_channel (fun d => d.Btn1) "btn1" assignChannel_Btn1 _ _,
   foldl_parsePart_channel (fun d => d.Btn2) "btn2" assignChannel_Btn2 _ _⟩

theorem parseFields_fits (now : Nat) (line : String) :
    fitsInt (parseFields now line).Gas ∧ fitsInt (parseFields now line).Light ∧
    fitsInt (parseFields now line).Soil ∧ fitsInt (parseFields now line).Water ∧
    fitsInt (parseFields now line).Infrar ∧ fitsInt (parseFields now line).Btn1 ∧
    fitsInt (parseFields now line).Btn2 := by
  obtain ⟨hG, hL, hS, hW, hI, h1, h2⟩ := parseFields_eq_spec now line
  rw [hG, hL, hS, hW, hI, h1, h2]
  exact ⟨specChannelValue_fits _ _, specChannelValue_fits _ _, specChannelValue_fits _ _,
    specChannelValue_fits _ _, specChannelValue_fits _ _, specChannelValue_fits _ _,
    specChannelValue_fits _ _⟩

/-- C12: a telemetry line that decodes to a sample with a non-zero primary
channel can be re-encoded as the canonical line and decoded again with the
same channel values (the timestamp is that of the second decoding); the
canonical line is telemetry again and is not discarded: handling it installs
the sample as the current reading. -/
theorem canonical_reparse (a : ArduinoSerial) (now now2 : Nat) (line : String)
    (hfree : a.mutex = false)
    (hnz : ¬ ((parseFields now line).Gas = 0 ∧ (parseFields now line).Light = 0 ∧
      (parseFields now line).Soil = 0 ∧ (parseFields now line).Water = 0)) :
    parseFields now2 (canonicalLine (parseFields now line)) =
      { parseFields now line with Timestamp := now2 } ∧
    canonicalLine (parseFields now line) ≠ "ACK" ∧
    strings.Contains (canonicalLine (parseFields now line)) "GAS:" = true ∧
    (handleIncomingData a now2 (canonicalLine (parseFields now line))).state.currentData =
      some { parseFields now line with Timestamp := now2 } := by
  obtain ⟨hG, hL, hS, hW, hI, h1, h2⟩ := parseFields_fits now line
  have hre := parseFields_canonicalLine now2 (parseFields now line) hG hL hS hW hI h1 h2
  have htel := canonicalLine_telemetry (parseFields now line)
  refine ⟨hre, htel.2, htel.1, ?_⟩
  have hnz2 : ¬ ((parseFields now2 (canonicalLine (parseFields now line))).Gas = 0 ∧
      (parseFields now2 (canonicalLine (parseFields now line))).Light = 0 ∧
      (parseFields now2 (canonicalLine (parseFields now line))).Soil = 0 ∧
      (parseFields now2 (canonicalLine (parseFields now line))).Water = 0) := by
    rw [hre]; exact hnz
  have hsnap := parseSensorData_snapshot a now2 _ hfree hnz2
  rw [hre] at hsnap
  simp only [handleIncomingData, htel.2, htel.1, if_false, if_true]
  exact hsnap

/-- Witness of C12 on a line with a lower-case key, padding and a malformed
part. -/
theorem canonical_reparse_witness :
    canonicalLine (parseFields 5 "GAS:750, light : 10 ,junk") =
      "GAS:750,LIGHT:10,SOIL:0,WATER:0,INFRAR:0,BTN1:0,BTN2:0" ∧
    parseFields 6 (canonicalLine (parseFields 5 "GAS:750, light : 10 ,junk")) =
      { parseFields 5 "GAS:750, light : 10 ,junk" with Timestamp := 6 } :=
  ⟨by decide, (canonical_reparse readySession 5 6 "GAS:750, light : 10 ,junk" rfl (by decide)).1⟩

/-! ## Telemetry buffer -/

theorem executeTriggeredActions_quiet (a : ArduinoSerial) (alerts : List String)
    (h : ∀ alert ∈ alerts, mentionsAction alert = false) :
    executeTriggeredActions a alerts = .returned a () := by
  induction alerts with
  | nil => rfl
  | cons alert rest ih =>
    have hq := h alert (List.mem_cons_self _ _)
    simp only [mentionsAction, Bool.or_eq_false_iff] at hq
    unfold executeTriggeredActions
    simp only [hq.1.1, hq.1.2, hq.2, Bool.false_eq_true, if_false]
    exact ih fun x hx => h x (List.mem_cons_of_mem _ hx)

theorem parseSensorData_accepted (a : ArduinoSerial) (now : Nat) (line : String)
    (hfree : a.mutex = false)
    (hnz : ¬ ((parseFields now line).Gas = 0 ∧ (parseFields now line).Light = 0 ∧
      (parseFields now line).Soil = 0 ∧ (parseFields now line).Water = 0))
    (hquiet : ∀ alert ∈ (EvaluateRules a.db (parseFields now line)).1,
      mentionsAction alert = false) :
    parseSensorData a now line =
      .returned
        { a with
          currentData := some (parseFields now line)
          db := (EvaluateRules a.db (parseFields now line)).2
          dataBuffer := capBuffer (a.dataBuffer ++
            [recordOf (parseFields now line) (EvaluateRules a.db (parseFields now line)).1]) }
        () := by
  unfold parseSensorData
  simp only []
  rw [if_neg hnz]
  simp only [hfree, Bool.false_eq_true, if_false]
  have hdb : a.lock.db = a.db := rfl
  rw [hdb]
  generalize hev : EvaluateRules a.db (parseFields now line) = ev at hquiet
  obtain ⟨alerts, db1⟩ := ev
  simp only [] at hquiet
  cases a
  cases alerts with
  | nil =>
    simp_all [Outcome.andThen, ArduinoSerial.lock, ArduinoSerial.unlock, recordOf]
  | cons x xs =>
    simp only [List.length_cons, gt_iff_lt, Nat.zero_lt_succ, if_true]
    rw [executeTriggeredActions_quiet _ _ hquiet]
    simp_all [Outcome.andThen, ArduinoSerial.lock, ArduinoSerial.unlock, recordOf]

theorem capBuffer_append (buf : List SensorData) (x : SensorData) :
    (100 < buf.length + 1 →
      capBuffer (buf ++ [x]) = buf.drop (buf.length - 49) ++ [x] ∧
      (capBuffer (buf ++ [x])).length = 50) ∧
    (buf.length + 1 ≤ 100 → capBuffer (buf ++ [x]) = buf ++ [x]) := by
  constructor
  · intro h
    have hcap : capBuffer (buf ++ [x]) = (buf ++ [x]).drop (buf.length + 1 - 50) := by
      simp [capBuffer, h]
    have hle : buf.length + 1 - 50 ≤ buf.length := by omega
    rw [hcap, List.drop_append_of_le_length hle]
    have hidx : buf.length + 1 - 50 = buf.length - 49 := by omega
    rw [hidx]
    refine ⟨rfl, ?_⟩
    simp only [List.length_append, List.length_drop, List.length_singleton]
    omega
  · intro h
    have : ¬ (buf.length + 1 > 100) := by omega
    simp [capBuffer, this]

/-- On the path that reaches the append (caller outside the lock, non-zero
primary channel, no action token in an alert text) `parseSensorData` appends
the record of the sample; if that makes the length exceed 100 the buffer is
cut to exactly 50 entries, the last 49 old entries in their order followed by
the new record, otherwise the buffer is the old buffer with the record
appended. -/
theorem quiet_sample_buffered (a : ArduinoSerial) (now : Nat) (line : String)
    (hfree : a.mutex = false)
    (hnz : ¬ ((parseFields now line).Gas = 0 ∧ (parseFields now line).Light = 0 ∧
      (parseFields now line).Soil = 0 ∧ (parseFields now line).Water = 0))
    (hquiet : ∀ alert ∈ (EvaluateRules a.db (parseFields now line)).1,
      mentionsAction alert = false) :
    (∃ s, parseSensorData a now line = .returned s () ∧
      s.dataBuffer = capBuffer (a.dataBuffer ++
        [recordOf (parseFields now line) (EvaluateRules a.db (parseFields now line)).1])) ∧
    (100 < a.dataBuffer.length + 1 →
      capBuffer (a.dataBuffer ++
          [recordOf (parseFields now line) (EvaluateRules a.db (parseFields now line)).1]) =
        a.dataBuffer.drop (a.dataBuffer.length - 49) ++
          [recordOf (parseFields now line) (EvaluateRules a.db (parseFields now line)).1] ∧
      (capBuffer (a.dataBuffer ++
          [recordOf (parseFields now line)
            (EvaluateRules a.db (parseFields now line)).1])).length = 50) ∧
    (a.dataBuffer.length + 1 ≤ 100 →
      capBuffer (a.dataBuffer ++
          [recordOf (parseFields now line) (EvaluateRules a.db (parseFields now line)).1]) =
        a.dataBuffer ++
          [recordOf (parseFields now line) (EvaluateRules a.db (parseFields now line)).1]) :=
  ⟨⟨_, parseSensorData_accepted a now line hfree hnz hquiet, rfl⟩,
    (capBuffer_append _ _).1, (capBuffer_append _ _).2⟩

/-- The cut on the session whose buffer holds 100 records: the line
`GAS:1,LIGHT:500` leaves the 49 newest old records and the new one. -/
theorem quiet_sample_buffered_at_full :
    fullSession.dataBuffer.length = 100 ∧
    capBuffer (fullSession.dataBuffer ++
        [recordOf (parseFields 200 "GAS:1,LIGHT:500")
          (EvaluateRules fullSession.db (parseFields 200 "GAS:1,LIGHT:500")).1]) =
      (List.range' 51 49).map stampedRecord ++ [stampedRecord 200] :=
  ⟨by decide, by
    rw [((quiet_sample_buffered fullSession 200 "GAS:1,LIGHT:500" rfl (by decide)
      (by decide)).2.1 (by decide)).1]
    decide⟩

theorem saveBufferedData_failed (a : ArduinoSerial) (during : ArduinoSerial → ArduinoSerial)
    (e : String) (hfree : a.mutex = false) (hne : a.dataBuffer ≠ [])
    (hfail : a.db.insertErr = some e)
    (hrel : (during { a with dataBuffer := [] }).mutex = false) :
    saveBufferedData a during =
      .returned
        { during { a with dataBuffer := [] } with
          dataBuffer := a.dataBuffer ++ (during { a with dataBuffer := [] }).dataBuffer } () := by
  have hlen : a.dataBuffer.length ≠ 0 := fun h => hne (List.length_eq_zero.1 h)
  have hemp : a.dataBuffer.isEmpty = false := by
    cases hb : a.dataBuffer with
    | nil => exact absurd hb hne
    | cons _ _ => rfl
  unfold saveBufferedData
  simp only [hfree, Bool.false_eq_true, if_false, ArduinoSerial.lock, hlen,
    ArduinoSerial.unlock, SaveBulkSensorData, hemp, hfail]
  generalize hd : during _ = d
  have hd2 : during { a with dataBuffer := [] } = d := by
    rw [← hd]; congr 1; cases a; simp_all
  rw [hd2] at hrel
  simp only [hd2, hrel, Bool.false_eq_true, if_false]

theorem saveBufferedData_saved (s : ArduinoSerial) (during : ArduinoSerial → ArduinoSerial)
    (hfree : s.mutex = false) (hne : s.dataBuffer ≠ []) (hok : s.db.insertErr = none) :
    saveBufferedData s during =
      .returned
        (during
          { s with
            dataBuffer := []
            db := { s.db with sensordatas := s.db.sensordatas ++ s.dataBuffer } }) () := by
  have hlen : s.dataBuffer.length ≠ 0 := fun h => hne (List.length_eq_zero.1 h)
  have hemp : s.dataBuffer.isEmpty = false := by
    cases hb : s.dataBuffer with
    | nil => exact absurd hb hne
    | cons _ _ => rfl
  unfold saveBufferedData
  simp only [hfree, Bool.false_eq_true, if_false, ArduinoSerial.lock, hlen,
    ArduinoSerial.unlock, SaveBulkSensorData, hemp, hok]

/-- When the persist call of a flush fails and the flush gets the lock back,
the buffer afterwards is the batch that failed to save followed by whatever
accumulated in the buffer while the call was in progress; and a flush that
succeeds appends the whole buffer it finds, a restored batch included, to the
store. -/
theorem relocked_flush_restores (a : ArduinoSerial) (during : ArduinoSerial → ArduinoSerial)
    (e : String) (hfree : a.mutex = false) (hne : a.dataBuffer ≠ [])
    (hfail : a.db.insertErr = some e)
    (hrel : (during { a with dataBuffer := [] }).mutex = false) :
    saveBufferedData a during =
      .returned
        { during { a with dataBuffer := [] } with
          dataBuffer := a.dataBuffer ++ (during { a with dataBuffer := [] }).dataBuffer } () ∧
    (∀ (s : ArduinoSerial) (later : ArduinoSerial → ArduinoSerial) (arrived : List SensorData),
      s.mutex = false → s.db.insertErr = none → s.dataBuffer = a.dataBuffer ++ arrived →
      saveBufferedData s later =
        .returned
          (later
            { s with
              dataBuffer := []
              db := { s.db with
                sensordatas := s.db.sensordatas ++ (a.dataBuffer ++ arrived) } }) ()) := by
  refine ⟨saveBufferedData_failed a during e hfree hne hfail hrel, ?_⟩
  intro s later arrived hs hok hbuf
  have hsne : s.dataBuffer ≠ [] := by
    rw [hbuf]
    intro h
    exact hne (List.append_eq_nil.1 h).1
  rw [saveBufferedData_saved s later hs hsne hok, hbuf]

/-- The full buffer over a failing store, one line arriving during the
persist call: the hundred records of the batch come back in front of the new
one. -/
theorem relocked_flush_restores_at_full :
    (saveBufferedData failingFullSession oneArrival).state.dataBuffer =
      (List.range 100).map stampedRecord ++ [stampedRecord 200] := by
  rw [(relocked_flush_restores failingFullSession oneArrival "connection refused" rfl
    (by decide) rfl (by decide)).1]
  decide

/-- C15 as stated fails: with 100 records buffered, a flush whose persist
call fails while one telemetry line arrives puts the batch back in front of
the new record without applying the cap, and the buffer holds 101 entries. -/
theorem failed_flush_exceeds_cap :
    failingFullSession.dataBuffer.length = 100 ∧
    (saveBufferedData failingFullSession oneArrival).state.dataBuffer.length = 101 := by
  decide

theorem capBuffer_length_le (buf : List SensorData) (x : SensorData) :
    (capBuffer (buf ++ [x])).length ≤ 100 := by
  by_cases h : 100 < buf.length + 1
  · rw [((capBuffer_append buf x).1 h).2]; decide
  · have hle : buf.length + 1 ≤ 100 := by omega
    rw [(capBuffer_append buf x).2 hle]
    simpa using hle

/-! ## Teardown and the session lock -/

theorem saveBufferedData_locked (a : ArduinoSerial) (during : ArduinoSerial → ArduinoSerial)
    (h : a.mutex = true) : saveBufferedData a during = .blocked a := by
  simp [saveBufferedData, h]

/-- On every connected session `Disconnect` closes the stop channel and then
waits for ever: it holds the mutex when it calls `saveBufferedData`, which
locks the same mutex first. -/
theorem Disconnect_connected_blocks (a : ArduinoSerial) (during : ArduinoSerial → ArduinoSerial)
    (hfree : a.mutex = false) (hconn : a.isConnected = true) (hopen : a.stopChan = false) :
    Disconnect a during = .blocked { a with mutex := true, stopChan := true } := by
  unfold Disconnect
  simp only [hfree, Bool.false_eq_true, if_false, ArduinoSerial.lock, hconn, Bool.not_true,
    hopen]
  rw [saveBufferedData_locked _ _ rfl]
  rfl

theorem executeTriggeredActions_blocks (a : ArduinoSerial) (alerts : List String)
    (hheld : a.mutex = true) (h : ∃ alert ∈ alerts, mentionsAction alert = true) :
    executeTriggeredActions a alerts = .blocked a := by
  induction alerts with
  | nil => obtain ⟨x, hx, _⟩ := h; cases hx
  | cons alert rest ih =>
    unfold executeTriggeredActions
    by_cases hm : mentionsAction alert = true
    · simp only [mentionsAction, Bool.or_eq_true] at hm
      split_ifs <;> simp_all [SendCommand_locked, Outcome.andThen]
    · have hrest : ∃ x ∈ rest, mentionsAction x = true := by
        obtain ⟨x, hx, hxm⟩ := h
        rcases List.mem_cons.1 hx with rfl | hx
        · exact absurd hxm hm
        · exact ⟨x, hx, hxm⟩
      have hq : mentionsAction alert = false := by
        cases hb : mentionsAction alert
        · rfl
        · exact absurd hb hm
      simp only [mentionsAction, Bool.or_eq_false_iff] at hq
      simp only [hq.1.1, hq.1.2, hq.2, Bool.false_eq_true, if_false]
      exact ih hrest

/-- C16 fails on the code: `Disconnect` on the connected session with one
buffered record closes the stop channel and then never returns; the record is
not persisted, the buffer is not emptied, the stream is not closed and the
connected flag is not cleared. -/
theorem Disconnect_never_returns :
    alertedSession.isConnected = true ∧ alertedSession.dataBuffer.length = 1 ∧
    Disconnect alertedSession id =
      .blocked { alertedSession with mutex := true, stopChan := true } ∧
    (Disconnect alertedSession id).state.db.sensordatas = [] ∧
    (Disconnect alertedSession id).state.dataBuffer.length = 1 ∧
    (Disconnect alertedSession id).state.port = some freshPort ∧
    (Disconnect alertedSession id).state.closedPorts = [] ∧
    (Disconnect alertedSession id).state.isConnected = true := by
  decide

/-- C17 fails on the code: `Disconnect` on the freshly connected session
blocks on the mutex it already holds, and so does the handling of the line
`GAS:750` when the triggered rule is named `buzzer_on when gas is high`:
`SendCommand` is reached with the mutex held by `parseSensorData`. -/
theorem lock_taken_twice :
    Disconnect readySession id =
      .blocked { readySession with mutex := true, stopChan := true } ∧
    (EvaluateRules tokenSession.db (parseFields 5 "GAS:750")).1 =
      ["buzzer_on when gas is high: gas > 700 (current: 750)"] ∧
    handleIncomingData tokenSession 5 "GAS:750" =
      .blocked
        { tokenSession with
          mutex := true
          currentData := some (parseFields 5 "GAS:750")
          db := (EvaluateRules tokenSession.db (parseFields 5 "GAS:750")).2 } := by
  decide

/-- C18: on a session that is not connected `Disconnect` returns success and
leaves the session exactly as it was: no stop signal, no flush, no close. -/
theorem Disconnect_not_connected (a : ArduinoSerial) (during : ArduinoSerial → ArduinoSerial)
    (hfree : a.mutex = false) (hdown : a.isConnected = false) :
    Disconnect a during = .returned a none := by
  cases a
  simp_all [Disconnect, ArduinoSerial.lock, ArduinoSerial.unlock]

/-- Witness of C18 on a newly constructed session. -/
theorem Disconnect_not_connected_witness :
    (NewArduinoSerial bootDb).isConnected = false ∧
    Disconnect (NewArduinoSerial bootDb) id = .returned (NewArduinoSerial bootDb) none :=
  ⟨rfl, Disconnect_not_connected (NewArduinoSerial bootDb) id rfl rfl⟩

/-! ## Bootstrap -/

/-- C19: when the rule count can be read and creation succeeds, the
bootstrap (whatever the clock reads at each creation) on an empty store
returns success and leaves exactly four rules,
all enabled: gas > 700 / buzzer_on, water > 800 / window_close, soil > 50 /
buzzer_on, light < 300 / white_light_on; on a store that holds a rule it
returns success and leaves the rules as they were. -/
theorem InitializeDefaultRules_bootstrap (db : Database) (clock : Nat → Nat)
    (hfind : db.findErr = none) (hcreate : db.createErr = none) :
    (db.rules = [] →
      (InitializeDefaultRules db clock).1 = none ∧
      (InitializeDefaultRules db clock).2.rules.map ruleSummary =
        [("gas", ">", 700, "buzzer_on", true), ("water", ">", 800, "window_close", true),
          ("soil", ">", 50, "buzzer_on", true), ("light", "<", 300, "white_light_on", true)]) ∧
    (db.rules ≠ [] →
      (InitializeDefaultRules db clock).1 = none ∧
      (InitializeDefaultRules db clock).2.rules = db.rules) := by
  constructor
  · intro hempty
    simp [InitializeDefaultRules, CountRules, hfind, hempty, createAll, CreateRule, hcreate,
      defaultRules, ruleSummary]
  · intro hne
    have hpos : db.rules.length > 0 := List.length_pos.2 hne
    simp [InitializeDefaultRules, CountRules, hfind, hpos]

/-- Witness of C19 on the empty store. -/
theorem InitializeDefaultRules_bootstrap_witness :
    (InitializeDefaultRules emptyDb fun k => 1000 + k).2.rules.length = 4 := by
  have h := (InitializeDefaultRules_bootstrap emptyDb (fun k => 1000 + k) rfl rfl).1 rfl
  have hl := congrArg List.length h.2
  simpa using hl

/-! ## Missing rules at the HTTP boundary -/

/-- Whatever the service answers for a well-formed identifier that is not in
the store is a wrapped error, and the handlers turn it into status 500. -/
theorem missing_rule_is_500 (docs : List RuleDoc) (id : String) (objectID : List Nat)
    (updates : Rule → Rule) (now : Nat) (hid : ObjectIDFromHex id = .ok objectID)
    (habsent : ∀ d ∈ docs, d.id ≠ objectID) :
    Handlers.UpdateRule docs id (.ok updates) now none =
      ({ status := 500,
         payload := .error "failed to update rule: mongo: no documents in result" }, docs) ∧
    Handlers.DeleteRule docs id none =
      ({ status := 500,
         payload := .error "failed to delete rule: mongo: no documents in result" }, docs) := by
  have hfind : (docs.find? fun d => d.id = objectID) = none := by
    rw [List.find?_eq_none]
    intro d hd
    simpa using habsent d hd
  have hany : (docs.any fun d => d.id = objectID) = false := by
    rw [List.any_eq_false]
    intro d hd
    simpa using habsent d hd
  constructor
  · simp only [Handlers.UpdateRule, RuleService.UpdateRule, hid, hfind]
    rw [if_neg (by decide)]
    rfl
  · simp only [Handlers.DeleteRule, RuleService.DeleteRule, hid, hany]
    rw [if_neg (by decide)]
    rfl

/-- C20 fails on the code: for the well-formed identifier
`507f1f77bcf86cd799439012`, absent from the store, update and delete answer
status 500 with the wrapped message, the same status as for a store failure,
and not 404 `Rule not found`. -/
theorem missing_rule_not_404 :
    ObjectIDFromHex "507f1f77bcf86cd799439012" =
      .ok [0x50, 0x7f, 0x1f, 0x77, 0xbc, 0xf8, 0x6c, 0xd7, 0x99, 0x43, 0x90, 0x12] ∧
    (Handlers.UpdateRule oneDocStore "507f1f77bcf86cd799439012"
        (.ok fun r => { r with Enabled := false }) 9 none).1 =
      { status := 500,
        payload := .error "failed to update rule: mongo: no documents in result" } ∧
    (Handlers.DeleteRule oneDocStore "507f1f77bcf86cd799439012" none).1 =
      { status := 500,
        payload := .error "failed to delete rule: mongo: no documents in result" } ∧
    (Handlers.DeleteRule oneDocStore "507f1f77bcf86cd799439012"
        (some (.other "server selection timeout"))).1.status = 500 ∧
    (Handlers.DeleteRule oneDocStore "507f1f77bcf86cd799439011" none) =
      ({ status := 200, payload := .message "Rule deleted" }, []) := by
  refine ⟨rfl, ?_, by decide, by decide, by decide⟩
  exact congrArg Prod.fst
    (missing_rule_is_500 oneDocStore "507f1f77bcf86cd799439012"
      [0x50, 0x7f, 0x1f, 0x77, 0xbc, 0xf8, 0x6c, 0xd7, 0x99, 0x43, 0x90, 0x12]
      (fun r => { r with Enabled := false }) 9 rfl (by decide)).1

/-! ## Actuator synchronisation -/

theorem toInt_of_wholeValue (indefinite : Int) (f : Float64) (n : Int)
    (hw : f.wholeValue = some n) (hfit : fitsInt n) : f.toInt indefinite = n := by
  cases f with
  | finite m e =>
    have ht : (Float64.finite m e).trunc = some n := by
      simp only [Float64.wholeValue] at hw
      simp only [Float64.trunc]
      split_ifs at hw with h1 h2
      · simpa [h1] using hw
      · simpa [h1] using hw
    simp only [Float64.toInt, ht]
    exact if_pos hfit
  | inf s => simp [Float64.wholeValue] at hw
  | nan => simp [Float64.wholeValue] at hw

/-- A whole value outside the range of `int` is not what the field receives:
the conversion yields the platform's indefinite result. -/
theorem toInt_out_of_range (indefinite : Int) (f : Float64) (n : Int)
    (hw : f.wholeValue = some n) (hfit : ¬ fitsInt n) : f.toInt indefinite = indefinite := by
  cases f with
  | finite m e =>
    have ht : (Float64.finite m e).trunc = some n := by
      simp only [Float64.wholeValue] at hw
      simp only [Float64.trunc]
      split_ifs at hw with h1 h2
      · simpa [h1] using hw
      · simpa [h1] using hw
    simp only [Float64.toInt, ht]
    exact if_neg hfit
  | inf s => rfl
  | nan => rfl

/-- C21: `SetActuatorState` (called outside the lock) changes the actuator
record only.  An unknown field name leaves the record as it was; a boolean
for one of white_light, yellow_light, relay, fan, buzzer sets that field and
no other; a number that holds a whole value within the range of the `int`
field for one of door_angle, window_angle, fan_speed sets that field to the
value and no other; a value of another type for a known field leaves the
record as it was. -/
theorem SetActuatorState_frame (a : ArduinoSerial) (actuator : String) (value : GoValue)
    (indefinite : Int) (hfree : a.mutex = false) :
    SetActuatorState a actuator value indefinite =
      .returned
        { a with
          actuatorStates := setActuator a.actuatorStates actuator value indefinite } () ∧
    (actuator ∉ specBoolFields ++ specIntFields →
      setActuator a.actuatorStates actuator value indefinite = a.actuatorStates) ∧
    (∀ b : Bool, value = .bool b →
      (actuator = "white_light" →
        setActuator a.actuatorStates actuator value indefinite =
          { a.actuatorStates with WhiteLight := b }) ∧
      (actuator = "yellow_light" →
        setActuator a.actuatorStates actuator value indefinite =
          { a.actuatorStates with YellowLight := b }) ∧
      (actuator = "relay" →
        setActuator a.actuatorStates actuator value indefinite =
          { a.actuatorStates with Relay := b }) ∧
      (actuator = "fan" →
        setActuator a.actuatorStates actuator value indefinite =
          { a.actuatorStates with Fan := b }) ∧
      (actuator = "buzzer" →
        setActuator a.actuatorStates actuator value indefinite =
          { a.actuatorStates with Buzzer := b })) ∧
    (∀ (f : Float64) (n : Int), value = .float64 f → f.wholeValue = some n → fitsInt n →
      (actuator = "door_angle" →
        setActuator a.actuatorStates actuator value indefinite =
          { a.actuatorStates with DoorAngle := n }) ∧
      (actuator = "window_angle" →
        setActuator a.actuatorStates actuator value indefinite =
          { a.actuatorStates with WindowAngle := n }) ∧
      (actuator = "fan_speed" →
        setActuator a.actuatorStates actuator value indefinite =
          { a.actuatorStates with FanSpeed := n })) ∧
    (actuator ∈ specBoolFields → (∀ b : Bool, value ≠ .bool b) →
      setActuator a.actuatorStates actuator value indefinite = a.actuatorStates) ∧
    (actuator ∈ specIntFields → (∀ f : Float64, value ≠ .float64 f) →
      setActuator a.actuatorStates actuator value indefinite = a.actuatorStates) := by
  refine ⟨?_, ?_, ?_, ?_, ?_, ?_⟩
  · cases a
    simp_all [SetActuatorState, ArduinoSerial.lock, ArduinoSerial.unlock]
  · intro hunk
    simp only [specBoolFields, specIntFields, List.cons_append, List.nil_append, List.mem_cons,
      List.mem_singleton, not_or, List.mem_nil_iff, or_false] at hunk
    obtain ⟨h1, h2, h3, h4, h5, h6, h7, h8⟩ := hunk
    simp [setActuator, h1, h2, h3, h4, h5, h6, h7, h8]
  · intro b hb
    subst hb
    refine ⟨?_, ?_, ?_, ?_, ?_⟩ <;> intro h <;> subst h <;> simp [setActuator]
  · intro f n hf hw hfit
    subst hf
    have hn := toInt_of_wholeValue indefinite f n hw hfit
    refine ⟨?_, ?_, ?_⟩ <;> intro h <;> subst h <;> simp [setActuator, hn]
  · intro hmem hnb
    simp only [specBoolFields, List.mem_cons, List.mem_singleton, List.mem_nil_iff,
      or_false] at hmem
    cases value with
    | bool b => exact absurd rfl (hnb b)
    | float64 f => rcases hmem with h | h | h | h | h <;> subst h <;> simp [setActuator]
    | other t => rcases hmem with h | h | h | h | h <;> subst h <;> simp [setActuator]
  · intro hmem hnf
    simp only [specIntFields, List.mem_cons, List.mem_singleton, List.mem_nil_iff,
      or_false] at hmem
    cases value with
    | bool b => rcases hmem with h | h | h <;> subst h <;> simp [setActuator]
    | float64 f => exact absurd rfl (hnf f)
    | other t => rcases hmem with h | h | h <;> subst h <;> simp [setActuator]

/-- Witness of C21: the number `90` (as `45 * 2 ^ 1`) for `door_angle` on the
freshly connected session. -/
theorem SetActuatorState_frame_witness :
    (SetActuatorState readySession "door_angle" (.float64 (.finite 45 1)) 0).state.actuatorStates =
      { readySession.actuatorStates with DoorAngle := 90 } := by
  have h := SetActuatorState_frame readySession "door_angle" (.float64 (.finite 45 1)) 0 rfl
  rw [h.1]
  exact (h.2.2.2.1 (.finite 45 1) 90 rfl (by decide) ⟨by decide, by decide⟩).1 rfl

/-! ## Reconnecting -/

/-- `Connect` never touches the stop channel: a channel closed before the
call is closed after it. -/
theorem Connect_keeps_stopChan (a : ArduinoSerial) (portName : String) (baudRate : Int)
    (opened : Except String Port) :
    (Connect a portName baudRate opened).state.stopChan = a.stopChan := by
  unfold Connect
  cases hm : a.mutex <;> cases hc : a.isConnected <;> cases opened <;>
    simp [hm, hc, Outcome.state, ArduinoSerial.lock, ArduinoSerial.unlock]

/-- On a connected session whose stop channel is already closed `Disconnect`
panics in `close(a.stopChan)`. -/
theorem Disconnect_closed_panics (a : ArduinoSerial) (during : ArduinoSerial → ArduinoSerial)
    (hfree : a.mutex = false) (hconn : a.isConnected = true) (hclosed : a.stopChan = true) :
    Disconnect a during = .panicked a := by
  cases a
  simp_all [Disconnect, ArduinoSerial.lock, ArduinoSerial.unlock]

/-- C22 fails on the code: in the sequence connect, disconnect, connect,
disconnect the first `Disconnect` closes the stop channel and never returns,
and with the mutex held for good the second `Connect` and the second
`Disconnect` wait for ever too.  Apart from that, `Connect` does not make a
new stop channel: on a session that was stopped, the stop signal is already
fired after a successful `Connect`, and the next `Disconnect` closes the
closed channel and panics. -/
theorem reconnect_sequence_fails :
    Connect (NewArduinoSerial bootDb) "COM3" 9600 (.ok freshPort) = .returned readySession none ∧
    Disconnect readySession id = .blocked stuckSession ∧
    stuckSession.stopChan = true ∧ stuckSession.isConnected = true ∧
    Connect stuckSession "COM3" 9600 (.ok freshPort) = .blocked stuckSession ∧
    Disconnect stuckSession id = .blocked stuckSession ∧
    Connect stoppedSession "COM3" 9600 (.ok freshPort) = .returned restartedSession none ∧
    restartedSession.stopChan = true ∧
    Disconnect restartedSession id = .panicked restartedSession := by
  decide

/-! ## Telemetry buffer: where the lock is never released -/

/-- C13 fails on the code: on the freshly connected session whose store holds
the rule named `buzzer_on when gas is high` the mutex is free and the buffer
is empty; the line `GAS:750` is accepted (its gas value is not zero and it
becomes the current reading), the text of its alert contains the token
`buzzer_on`, and the handler waits for ever in `SendCommand` under its own
lock, before the append: the sample is never in the buffer. -/
theorem accepted_sample_not_buffered :
    tokenSession.mutex = false ∧ tokenSession.isConnected = true ∧
    tokenSession.dataBuffer = [] ∧
    (parseFields 5 "GAS:750").Gas = 750 ∧
    (EvaluateRules tokenSession.db (parseFields 5 "GAS:750")).1 =
      ["buzzer_on when gas is high: gas > 700 (current: 750)"] ∧
    handleIncomingData tokenSession 5 "GAS:750" = .blocked unbufferedSession ∧
    unbufferedSession.currentData = some (parseFields 5 "GAS:750") ∧
    unbufferedSession.mutex = true ∧
    unbufferedSession.dataBuffer = [] := by
  decide

/-- C14 fails on the code: with one record buffered over a store whose bulk
insert fails, a flush during whose persist call `Disconnect` is called, or the
line `GAS:750` arrives whose alert text names `buzzer_on`, never gets the lock
back: it waits for ever at the second `Lock`, the buffer stays without the
batch and the store never received it. -/
theorem failed_flush_loses_batch :
    unsavedSession.mutex = false ∧
    unsavedSession.dataBuffer = [stampedRecord 5] ∧
    unsavedSession.db.insertErr = some "connection refused" ∧
    saveBufferedData unsavedSession teardownArrives =
      .blocked (teardownArrives (swappedOut unsavedSession)) ∧
    (teardownArrives (swappedOut unsavedSession)).dataBuffer = [] ∧
    (teardownArrives (swappedOut unsavedSession)).db.sensordatas = [] ∧
    saveBufferedData unsavedSession alarmArrives =
      .blocked (alarmArrives (swappedOut unsavedSession)) ∧
    (alarmArrives (swappedOut unsavedSession)).dataBuffer = [] ∧
    (alarmArrives (swappedOut unsavedSession)).db.sensordatas = [] := by
  decide

/-! ## Telemetry buffer: where the cap is applied -/

/-- The body of `saveBufferedData` in terms of `swappedOut`. -/
theorem saveBufferedData_eq (a : ArduinoSerial) (during : ArduinoSerial → ArduinoSerial) :
    saveBufferedData a during =
      if a.mutex then .blocked a
      else if a.dataBuffer.length = 0 then .returned { a with mutex := false } ()
      else
        match (SaveBulkSensorData a.db a.dataBuffer).1 with
        | none => .returned (during (swappedOut a)) ()
        | some _ =>
          if (during (swappedOut a)).mutex then .blocked (during (swappedOut a))
          else
            .returned
              { during (swappedOut a) with
                dataBuffer := a.dataBuffer ++ (during (swappedOut a)).dataBuffer
                mutex := false } () := by
  rfl

theorem parseSensorData_buffer (a : ArduinoSerial) (now : Nat) (line : String) :
    (parseSensorData a now line).state.dataBuffer = a.dataBuffer ∨
    (parseSensorData a now line).state.dataBuffer.length ≤ 100 := by
  unfold parseSensorData
  simp only []
  generalize hev : EvaluateRules a.lock.db (parseFields now line) = ev
  obtain ⟨alerts, db1⟩ := ev
  split_ifs with hz hm hal
  · left; simp [Outcome.state]
  · left; simp [Outcome.state]
  · rcases executeTriggeredActions_locked
        { a.lock with currentData := some (parseFields now line), db := db1 } alerts rfl
        with h | h
    · right
      simp only [ArduinoSerial.lock] at h
      simp only [h, Outcome.andThen, Outcome.state, ArduinoSerial.lock, ArduinoSerial.unlock]
      exact capBuffer_length_le _ _
    · left
      simp only [ArduinoSerial.lock] at h
      simp [h, Outcome.andThen, Outcome.state, ArduinoSerial.lock]
  · right
    simp only [Outcome.andThen, Outcome.state, ArduinoSerial.lock, ArduinoSerial.unlock]
    exact capBuffer_length_le _ _

theorem parseActuatorResponse_buffer (a : ArduinoSerial) (line : String) :
    (parseActuatorResponse a line).state.dataBuffer = a.dataBuffer := by
  unfold parseActuatorResponse
  split_ifs <;> simp [Outcome.state, ArduinoSerial.lock, ArduinoSerial.unlock]

theorem handleIncomingData_buffer (a : ArduinoSerial) (now : Nat) (line : String) :
    (handleIncomingData a now line).state.dataBuffer = a.dataBuffer ∨
    (handleIncomingData a now line).state.dataBuffer.length ≤ 100 := by
  unfold handleIncomingData
  split_ifs with hack hm hgas
  · left; rfl
  · left
    simp only [ArduinoSerial.lock]
    cases a.commandQueue <;> rfl
  · exact parseSensorData_buffer a now line
  · left; exact parseActuatorResponse_buffer a line

theorem SaveBulkSensorData_err (db : Database) (data : List SensorData) (hne : data ≠ []) :
    (db.insertErr = none → (SaveBulkSensorData db data).1 = none) ∧
    (∀ e, db.insertErr = some e →
      (SaveBulkSensorData db data).1 = some ("failed to save bulk sensor data: " ++ e)) := by
  have hemp : data.isEmpty = false := by
    cases data with
    | nil => exact absurd rfl hne
    | cons _ _ => rfl
  constructor
  · intro h
    simp [SaveBulkSensorData, hemp, h]
  · intro e h
    simp [SaveBulkSensorData, hemp, h]

/-- C15, amended: the cap is applied where a record is appended, nowhere
else.  Handling an incoming line either leaves the buffer as it was or leaves
at most 100 entries in it.  After a flush the buffer holds at most the entries
of the batch the flush found plus the entries the buffer holds at the end of
the persist call; a flush that starts with the lock free on a non-empty buffer
returns with exactly what accumulated during the persist call when the batch
was saved, and, when the persist call failed and the flush gets the lock back,
with the whole batch in front of what accumulated, no cap applied. -/
theorem buffer_bound_by_path (a : ArduinoSerial) (now : Nat) (line : String)
    (during : ArduinoSerial → ArduinoSerial) :
    ((handleIncomingData a now line).state.dataBuffer = a.dataBuffer ∨
      (handleIncomingData a now line).state.dataBuffer.length ≤ 100) ∧
    (saveBufferedData a during).state.dataBuffer.length ≤
      a.dataBuffer.length + (during (swappedOut a)).dataBuffer.length ∧
    (a.mutex = false → a.dataBuffer ≠ [] → a.db.insertErr = none →
      saveBufferedData a during = .returned (during (swappedOut a)) ()) ∧
    (∀ e, a.mutex = false → a.dataBuffer ≠ [] → a.db.insertErr = some e →
      (during (swappedOut a)).mutex = false →
      saveBufferedData a during =
        .returned
          { during (swappedOut a) with
            dataBuffer := a.dataBuffer ++ (during (swappedOut a)).dataBuffer } ()) := by
  refine ⟨handleIncomingData_buffer a now line, ?_, ?_, ?_⟩
  · rw [saveBufferedData_eq]
    by_cases hm : a.mutex = true
    · rw [if_pos hm]
      exact Nat.le_add_right _ _
    · rw [if_neg hm]
      by_cases hl : a.dataBuffer.length = 0
      · rw [if_pos hl]
        exact Nat.le_add_right _ _
      · rw [if_neg hl]
        cases (SaveBulkSensorData a.db a.dataBuffer).1 with
        | none => exact Nat.le_add_left _ _
        | some e =>
          by_cases hd : (during (swappedOut a)).mutex = true
          · simp only [hd, if_true]
            exact Nat.le_add_left _ _
          · simp only [hd, if_false]
            simp [Outcome.state]
  · intro hfree hne hok
    have hlen : a.dataBuffer.length ≠ 0 := fun h => hne (List.length_eq_zero.1 h)
    rw [saveBufferedData_eq, if_neg (by simp [hfree]), if_neg hlen,
      (SaveBulkSensorData_err a.db a.dataBuffer hne).1 hok]
  · intro e hfree hne hfail hrel
    have hlen : a.dataBuffer.length ≠ 0 := fun h => hne (List.length_eq_zero.1 h)
    rw [saveBufferedData_eq, if_neg (by simp [hfree]), if_neg hlen,
      (SaveBulkSensorData_err a.db a.dataBuffer hne).2 e hfail]
    simp only [hrel, Bool.false_eq_true, if_false]

/-- The two flush conjuncts of `buffer_bound_by_path` on the full buffer, one
line arriving during the persist call: over a store that accepts the batch the
flush leaves the one new record, over a store that refuses it the hundred
records come back in front of the new one. -/
theorem buffer_bound_by_path_witness :
    saveBufferedData fullSession oneArrival = .returned (oneArrival (swappedOut fullSession)) () ∧
    (oneArrival (swappedOut fullSession)).dataBuffer = [stampedRecord 200] ∧
    saveBufferedData failingFullSession oneArrival =
      .returned
        { oneArrival (swappedOut failingFullSession) with
          dataBuffer := failingFullSession.dataBuffer ++
            (oneArrival (swappedOut failingFullSession)).dataBuffer } () :=
  ⟨(buffer_bound_by_path fullSession 0 "" oneArrival).2.2.1 rfl (by decide) rfl,
    by decide,
    (buffer_bound_by_path failingFullSession 0 "" oneArrival).2.2.2 "connection refused"
      rfl (by decide) rfl (by decide)⟩

end SmartHome
